import Mathlib

/-!
The plug-in gimp-webp: the export path of `src/webp-save.c`

A shallow embedding of `webp_preset_by_name`, `webp_anim_file_writer`,
`webp_file_writer`, `webp_error_string`, `save_layer`, `save_animation` and
`save_image`.

The C functions talk to GIMP, GEGL, glib, stdio and libwebp.  Those
collaborators are not part of the repository; their answers are supplied by a
`Host` record (a deterministic oracle), and every call made to them is
appended to the `log` of the `World` that is threaded through the code.

Conventions
* `gboolean` and `gint` values are `Int`; `FALSE` is `0`.
* Pointers that the code tests against `NULL` are `Option`s.
* Bytes are carried as natural numbers; no arithmetic is done on them.
* `GIMP_2_9` is the build-time switch of `config.h`; it is a field of `Host`.
  The block guarded by `__BACKGROUND_COLOR__` is not compiled in (no file of
  the repository defines that symbol).
* Writes to an open stdio stream store every byte they are given.
-/

set_option linter.unusedVariables false

namespace WebpSave

/-! ## Constants of the collaborating libraries -/

abbrev Bytes := List Nat

/-- The `WebPPreset` enumeration of `webp/encode.h`. -/
inductive WebPPreset where
  | WEBP_PRESET_DEFAULT
  | WEBP_PRESET_PICTURE
  | WEBP_PRESET_PHOTO
  | WEBP_PRESET_DRAWING
  | WEBP_PRESET_ICON
  | WEBP_PRESET_TEXT
  deriving DecidableEq, Repr

/-- Value of `VP8_ENC_OK` in the `WebPEncodingError` enumeration of `webp/encode.h`. -/
def VP8_ENC_OK : Int := 0
/-- Value of `VP8_ENC_ERROR_OUT_OF_MEMORY` in `webp/encode.h`. -/
def VP8_ENC_ERROR_OUT_OF_MEMORY : Int := 1
/-- Value of `VP8_ENC_ERROR_BITSTREAM_OUT_OF_MEMORY` in `webp/encode.h`. -/
def VP8_ENC_ERROR_BITSTREAM_OUT_OF_MEMORY : Int := 2
/-- Value of `VP8_ENC_ERROR_NULL_PARAMETER` in `webp/encode.h`. -/
def VP8_ENC_ERROR_NULL_PARAMETER : Int := 3
/-- Value of `VP8_ENC_ERROR_INVALID_CONFIGURATION` in `webp/encode.h`. -/
def VP8_ENC_ERROR_INVALID_CONFIGURATION : Int := 4
/-- Value of `VP8_ENC_ERROR_BAD_DIMENSION` in `webp/encode.h`. -/
def VP8_ENC_ERROR_BAD_DIMENSION : Int := 5
/-- Value of `VP8_ENC_ERROR_PARTITION0_OVERFLOW` in `webp/encode.h`. -/
def VP8_ENC_ERROR_PARTITION0_OVERFLOW : Int := 6
/-- Value of `VP8_ENC_ERROR_PARTITION_OVERFLOW` in `webp/encode.h`. -/
def VP8_ENC_ERROR_PARTITION_OVERFLOW : Int := 7
/-- Value of `VP8_ENC_ERROR_BAD_WRITE` in `webp/encode.h`. -/
def VP8_ENC_ERROR_BAD_WRITE : Int := 8
/-- Value of `VP8_ENC_ERROR_FILE_TOO_BIG` in `webp/encode.h`. -/
def VP8_ENC_ERROR_FILE_TOO_BIG : Int := 9
/-- Value of `VP8_ENC_ERROR_USER_ABORT` in `webp/encode.h`. -/
def VP8_ENC_ERROR_USER_ABORT : Int := 10
/-- Value of `VP8_ENC_ERROR_LAST`, the list terminator of the enumeration. -/
def VP8_ENC_ERROR_LAST : Int := 11

/-- Value of `GIMP_RGB_IMAGE` in the `GimpImageType` enumeration. -/
def GIMP_RGB_IMAGE : Int := 0

/-- The glib error domain `G_FILE_ERROR`. -/
def G_FILE_ERROR : String := "g-file-error-quark"

/-! ## Pure helpers of `webp-save.c` -/

/-- Function `webp_preset_by_name` (lines 37-63): a chain of `strcmp` tests. -/
def webp_preset_by_name (name : String) : WebPPreset :=
  if name = "picture" then WebPPreset.WEBP_PRESET_PICTURE
  else if name = "photo" then WebPPreset.WEBP_PRESET_PHOTO
  else if name = "drawing" then WebPPreset.WEBP_PRESET_DRAWING
  else if name = "icon" then WebPPreset.WEBP_PRESET_ICON
  else if name = "text" then WebPPreset.WEBP_PRESET_TEXT
  else WebPPreset.WEBP_PRESET_DEFAULT

/-- Function `webp_error_string` (lines 98-127): the `switch` over the error code,
with its `default` branch last. -/
def webp_error_string (error_code : Int) : String :=
  if error_code = VP8_ENC_ERROR_OUT_OF_MEMORY then "out of memory"
  else if error_code = VP8_ENC_ERROR_BITSTREAM_OUT_OF_MEMORY then
    "not enough memory to flush bits"
  else if error_code = VP8_ENC_ERROR_NULL_PARAMETER then "NULL parameter"
  else if error_code = VP8_ENC_ERROR_INVALID_CONFIGURATION then "invalid configuration"
  else if error_code = VP8_ENC_ERROR_BAD_DIMENSION then "bad image dimensions"
  else if error_code = VP8_ENC_ERROR_PARTITION0_OVERFLOW then
    "partition is bigger than 512K"
  else if error_code = VP8_ENC_ERROR_PARTITION_OVERFLOW then
    "partition is bigger than 16M"
  else if error_code = VP8_ENC_ERROR_BAD_WRITE then "unable to flush bytes"
  else if error_code = VP8_ENC_ERROR_FILE_TOO_BIG then "file is larger than 4GiB"
  else if error_code = VP8_ENC_ERROR_USER_ABORT then "user aborted encoding"
  else if error_code = VP8_ENC_ERROR_LAST then "list terminator"
  else "unknown error"

/-! ## Data handed between the plug-in and the libraries -/

/-- The fields of `WebPSaveParams` (declared in `webp-save.h`) that
`webp-save.c` reads.  `quality` and `alpha_quality` are only passed on to
libwebp. -/
structure WebPSaveParams where
  preset : String
  lossless : Int
  quality : Int
  alpha_quality : Int
  animation : Int
  loop : Int
  deriving DecidableEq, Repr

/-- The fields of a `WebPConfig` that the plug-in chooses: the arguments of
`WebPConfigPreset` and the members assigned afterwards. -/
structure WebPConfig where
  preset : WebPPreset
  quality : Int
  lossless : Int
  method : Int
  alpha_quality : Int
  exact : Int
  deriving DecidableEq, Repr

/-- The two sinks installed as `picture.writer`. -/
inductive Writer where
  | webp_file_writer
  | WebPMemoryWrite
  deriving DecidableEq, Repr

/-- The members of a `WebPPicture` that the plug-in sets, and the pixels
imported into it (`rgba` tells which of `WebPPictureImportRGB` and
`WebPPictureImportRGBA` was used, `stride` is the third argument). -/
structure WebPPicture where
  use_argb : Int
  argb_stride : Int
  width : Int
  height : Int
  writer : Writer
  rgba : Bool
  pixels : Bytes
  stride : Int
  deriving DecidableEq, Repr

/-- A `GError`: domain, code and message. -/
structure GError where
  domain : String
  code : Int
  message : String
  deriving DecidableEq, Repr

/-- The members of `WebPMuxAnimParams`. -/
structure WebPMuxAnimParams where
  bgcolor : Int
  loop_count : Int
  deriving DecidableEq, Repr

/-- What a `WebPMux` object holds: the container it was created from, the
animation parameters and the `ICCP` chunk set on it. -/
structure WebPMux where
  base : Bytes
  anim : Option WebPMuxAnimParams
  iccp : Option Bytes
  deriving DecidableEq, Repr

/-- One call made to a collaborator, with the arguments and the answer that
matter to the plug-in. -/
inductive Event where
  | g_print (msg : String)
  | g_printerr (msg : String)
  | gimp_progress_init_printf (msg : String)
  | g_fopen (filename : String) (mode : String) (opened : Bool)
  | g_set_error (domain : String) (code : Int) (message : String)
  | gimp_drawable_get_buffer (drawable_ID : Int)
  | gegl_buffer_get (drawable_ID : Int)
  | gegl_buffer_flush (drawable_ID : Int)
  | g_object_unref_buffer (drawable_ID : Int)
  | gimp_drawable_get (drawable_ID : Int)
  | gimp_pixel_rgn_get_rect (drawable_ID : Int)
  | gimp_drawable_detach (drawable_ID : Int)
  /-- The call `g_malloc` for a pixel buffer (lines 215 and 446). -/
  | g_malloc (size : Int) (allocated : Bool)
  /-- The call `g_malloc` for `indata`, into which the file is read back (line 288). -/
  | g_malloc_indata (size : Nat)
  | free_buffer
  | WebPEncode (config : WebPConfig) (picture : WebPPicture) (ok : Bool)
  | fwrite (data : Bytes)
  | fflush
  | fstat (size : Nat)
  | rewind
  | fread (size : Nat) (res : Int)
  | fclose
  | WebPMuxCreate (data : Option Bytes) (created : Bool)
  | gimp_image_get_color_profile (image_ID : Int) (found : Bool)
  | WebPMuxSetChunk (present : Bool) (fourcc : String) (data : Bytes)
  | g_object_unref_profile
  | WebPMuxSetAnimationParams (present : Bool) (params : WebPMuxAnimParams)
  | WebPMuxAssemble (present : Bool) (assembled : Option Bytes)
  | webp_anim_file_writer (data : Option Bytes)
  | WebPDataClear (data : Option Bytes)
  | WebPPictureFree
  | WebPMemoryWriterClear
  | WebPAnimEncoderOptionsInit (ok : Bool)
  | WebPAnimEncoderNew (width : Int) (height : Int) (created : Bool)
  | WebPAnimEncoderAdd (present : Bool) (frame : Option WebPPicture) (timestamp : Int)
      (config : Option WebPConfig)
  | WebPAnimEncoderAssemble (present : Bool) (ok : Bool) (data : Option Bytes)
  | WebPAnimEncoderGetError
  | WebPAnimEncoderDelete (present : Bool)
  | gegl_init
  | gimp_image_metadata_save_prepare (image_ID : Int) (found : Bool)
  | gimp_metadata_set_bits_per_sample (bits : Int)
  | gimp_image_metadata_save_finish (image_ID : Int) (filename : String)
  deriving DecidableEq, Repr

/-- The answers of the collaborators.  Every field is the result of one
library call as a function of what the plug-in passes to it. -/
structure Host where
  /-- Whether `config.h` defines `GIMP_2_9`. -/
  GIMP_2_9 : Bool
  gimp_filename_to_utf8 : String → String
  /-- Whether `g_fopen` returns a stream. -/
  fopen_ok : Bool
  /-- The value of `g_file_error_from_errno(errno)` after a failed `g_fopen`. -/
  file_error_code : Int
  gimp_drawable_type : Int → Int
  gimp_drawable_bpp : Int → Int
  /-- Width of a drawable (of its GEGL extent under `GIMP_2_9`). -/
  gimp_drawable_width : Int → Int
  /-- Height of a drawable (of its GEGL extent under `GIMP_2_9`). -/
  gimp_drawable_height : Int → Int
  /-- The bytes that reading the whole drawable puts into the buffer. -/
  drawable_pixels : Int → Bytes
  /-- Whether `g_malloc` returns a buffer in `save_layer`. -/
  layer_alloc_ok : Bool
  /-- Whether `g_malloc` returns a buffer in iteration `loop` of `save_animation`. -/
  anim_alloc_ok : Nat → Bool
  /-- The chunks `WebPEncode` hands to the writer, in order. -/
  encode_chunks : WebPConfig → WebPPicture → List Bytes
  /-- The `picture.error_code` `WebPEncode` ends with when every chunk was
  accepted by the writer; `VP8_ENC_OK` means success. -/
  encode_error : WebPConfig → WebPPicture → Int
  /-- Whether `fread` delivers the bytes asked for. -/
  fread_ok : Bool
  /-- Whether `WebPMuxCreate` accepts the bytes as a container. -/
  mux_create_ok : Bytes → Bool
  /-- The ICC profile of `gimp_image_get_color_profile`, `none` for `NULL`. -/
  color_profile : Int → Option Bytes
  /-- What `WebPMuxAssemble` leaves in its output argument, as a function of
  the mux object (`none` for `NULL`) and of what the argument held before;
  `none` stands for the empty `WebPData` (`bytes == NULL`). -/
  mux_assemble : Option WebPMux → Option Bytes → Option Bytes
  anim_options_init_ok : Bool
  /-- Whether `WebPAnimEncoderNew` returns an encoder for this canvas. -/
  anim_new_ok : Int → Int → Bool
  /-- Whether `WebPAnimEncoderAdd` accepts the frame of iteration `loop`. -/
  anim_add_ok : Nat → Bool
  /-- The `picture.error_code` left by a refused `WebPAnimEncoderAdd`. -/
  anim_add_error : Nat → Int
  /-- The result of `WebPAnimEncoderAssemble` on an encoder that accepted
  these frames (picture and timestamp), and what it leaves in `webp_data`. -/
  anim_assemble : List (WebPPicture × Int) → Bool × Option Bytes
  /-- The text of `WebPAnimEncoderGetError`. -/
  anim_error_string : String
  /-- Whether `gimp_image_metadata_save_prepare` returns metadata. -/
  metadata_found : Int → Bool

/-- The state the export acts on: the calls made so far (oldest first), the
`GError*` the caller's `error` points to, the content of the file `filename`
(`none` when there is no such file) and the position of the open stream. -/
structure World where
  log : List Event
  error : Option GError
  file : Option Bytes
  pos : Nat
  deriving DecidableEq, Repr

/-- How a call ends: it returns a `gboolean`, or it runs into undefined
behaviour (use of an uninitialised pointer, a `NULL` stream handed to stdio). -/
inductive Outcome where
  | returned (status : Bool) (w : World)
  | undefined (w : World)
  deriving DecidableEq, Repr

/-- Record one call. -/
def World.emit (w : World) (e : Event) : World :=
  { w with log := w.log ++ [e] }

/-- The glib function `g_set_error`: a new `GError` is stored only when the
location holds `NULL`; an error that is already there is kept. -/
def g_set_error (domain : String) (code : Int) (message : String) (w : World) : World :=
  let w := w.emit (Event.g_set_error domain code message)
  match w.error with
  | none => { w with error := some { domain := domain, code := code, message := message } }
  | some _ => w

/-- A successful `g_fopen` with mode `wb` or `wb+`: the file is created or
truncated and the stream stands at its start. -/
def fopen_truncate (filename : String) (mode : String) (w : World) : World :=
  { (w.emit (Event.g_fopen filename mode true)) with file := some [], pos := 0 }

/-- The stdio function `fwrite` on the open stream: the bytes replace what is at the stream
position and the position moves behind them.  Returns the number of bytes
written. -/
def fwrite (data : Bytes) (w : World) : Nat × World :=
  let old := w.file.getD []
  (data.length,
   { (w.emit (Event.fwrite data)) with
     file := some (old.take w.pos ++ data ++ old.drop (w.pos + data.length)),
     pos := w.pos + data.length })

/-- The stdio function `rewind`. -/
def rewind (w : World) : World :=
  { (w.emit Event.rewind) with pos := 0 }

/-- Conversion of a byte count to a C `int` (32 bits, two's complement). -/
def to_int (n : Nat) : Int :=
  ((n : Int) + 2 ^ 31) % 2 ^ 32 - 2 ^ 31

/-- Function `webp_anim_file_writer` (lines 65-79): nothing is written for `NULL`
data; otherwise one item of `data_size` bytes is written. -/
def webp_anim_file_writer (data : Option Bytes) (w : World) : Bool × World :=
  let w := w.emit (Event.webp_anim_file_writer data)
  match data with
  | none => (false, w)
  | some d =>
    let (n, w) := fwrite d w
    (decide (n = d.length ∧ 0 < d.length), w)

/-- Function `webp_file_writer` (lines 81-90): the chunk goes to the stream kept in
`picture->custom_ptr`; the result tells whether all of it was written. -/
def webp_file_writer (data : Bytes) (w : World) : Bool × World :=
  let (n, w) := fwrite data w
  (decide (n = data.length), w)

/-! ## The single-frame path -/

/-- The writer loop inside `WebPEncode`: each chunk is handed to
`picture.writer` (here `webp_file_writer`); a refusal stops the loop. -/
def write_chunks : List Bytes → World → Bool × World
  | [], w => (true, w)
  | c :: cs, w =>
    let (ok, w) := webp_file_writer c w
    if ok then write_chunks cs w else (false, w)

/-- The libwebp function `WebPEncode` with the file writer installed: the chunks are
streamed to the file; the call ends with `VP8_ENC_ERROR_BAD_WRITE` when the
writer refused a chunk and with the encoder's own code otherwise.  Returns
`picture.error_code`; the C return value is non-zero exactly for
`VP8_ENC_OK`. -/
def WebPEncode (host : Host) (config : WebPConfig) (picture : WebPPicture)
    (w : World) : Int × World :=
  let (written, w) := write_chunks (host.encode_chunks config picture) w
  let code := if written then host.encode_error config picture else VP8_ENC_ERROR_BAD_WRITE
  (code, w.emit (Event.WebPEncode config picture (decide (code = VP8_ENC_OK))))

/-- The `WebPConfig` of `save_layer` (lines 197-203): zero-initialised,
then the preset, then the three assignments. -/
def layer_config (params : WebPSaveParams) : WebPConfig :=
  { preset := webp_preset_by_name params.preset, quality := params.quality,
    lossless := params.lossless, method := 6,
    alpha_quality := params.alpha_quality, exact := 0 }

/-- The `WebPPicture` of `save_layer` (lines 206-253) once the buffer has
been imported. -/
def layer_picture (host : Host) (drawable_ID : Int) : WebPPicture :=
  { use_argb := 1, argb_stride := 0,
    width := host.gimp_drawable_width drawable_ID,
    height := host.gimp_drawable_height drawable_ID,
    writer := Writer.webp_file_writer,
    rgba := decide (host.gimp_drawable_type drawable_ID ≠ GIMP_RGB_IMAGE),
    pixels := host.drawable_pixels drawable_ID,
    stride := host.gimp_drawable_width drawable_ID * host.gimp_drawable_bpp drawable_ID }

/-- The locals of `save_layer` that are read after its `do ... while(0)`
block.  `outfile` and `buffer` tell whether the pointer is non-`NULL`;
`geglbuffer` (declared without initialiser, `GIMP_2_9` only) is `none` until
it is assigned. -/
structure LayerLocals where
  status : Bool
  outfile : Bool
  buffer : Bool
  geglbuffer : Option Int
  deriving DecidableEq, Repr

/-- Lines 161-273 of `save_layer`: the `do ... while(0)` block; each `break`
is an early result. -/
def save_layer_body (host : Host) (filename : String) (drawable_ID : Int)
    (params : WebPSaveParams) (w : World) : LayerLocals × World :=
  let w := w.emit (Event.gimp_progress_init_printf
    ("Saving '" ++ host.gimp_filename_to_utf8 filename ++ "'"))
  if host.fopen_ok = false then
    let w := w.emit (Event.g_fopen filename "wb+" false)
    let w := g_set_error G_FILE_ERROR host.file_error_code
      ("Unable to open '" ++ host.gimp_filename_to_utf8 filename ++ "' for writing") w
    ({ status := false, outfile := false, buffer := false, geglbuffer := none }, w)
  else
    let w := fopen_truncate filename "wb+" w
    let geglbuffer := if host.GIMP_2_9 then some drawable_ID else none
    let w := if host.GIMP_2_9 then w.emit (Event.gimp_drawable_get_buffer drawable_ID) else w
    let bpp := host.gimp_drawable_bpp drawable_ID
    let wd := host.gimp_drawable_width drawable_ID
    let h := host.gimp_drawable_height drawable_ID
    let config := layer_config params
    let w := w.emit (Event.g_malloc (wd * h * bpp) host.layer_alloc_ok)
    if host.layer_alloc_ok = false then
      ({ status := false, outfile := true, buffer := false, geglbuffer := geglbuffer }, w)
    else
      let w :=
        if host.GIMP_2_9 then w.emit (Event.gegl_buffer_get drawable_ID)
        else ((w.emit (Event.gimp_drawable_get drawable_ID)).emit
          (Event.gimp_pixel_rgn_get_rect drawable_ID)).emit
          (Event.gimp_drawable_detach drawable_ID)
      let picture := layer_picture host drawable_ID
      let (error_code, w) := WebPEncode host config picture w
      if error_code ≠ VP8_ENC_OK then
        let w := w.emit (Event.g_print ("WebP error: '" ++ webp_error_string error_code ++ "'"))
        let w := g_set_error G_FILE_ERROR error_code
          ("WebP error: '" ++ webp_error_string error_code ++ "'") w
        ({ status := false, outfile := true, buffer := true, geglbuffer := geglbuffer }, w)
      else
        ({ status := true, outfile := true, buffer := true, geglbuffer := geglbuffer }, w)

/-- Lines 299-327 of `save_layer`: what is done with the mux object.  Returns
the content of `wp_data` afterwards. -/
def save_layer_mux (host : Host) (image_ID : Int) (indata : Bytes)
    (w : World) : Option Bytes × World :=
  let created := host.mux_create_ok indata
  let w := w.emit (Event.WebPMuxCreate (some indata) created)
  if created then
    match host.color_profile image_ID with
    | some icc_data =>
      let w := w.emit (Event.gimp_image_get_color_profile image_ID true)
      let mux : WebPMux := { base := indata, anim := none, iccp := some icc_data }
      let w := w.emit (Event.WebPMuxSetChunk true "ICCP" icc_data)
      let w := w.emit Event.g_object_unref_profile
      let assembled := host.mux_assemble (some mux) (some indata)
      let w := w.emit (Event.WebPMuxAssemble true assembled)
      let w := rewind w
      let (_, w) := webp_anim_file_writer assembled w
      (assembled, w)
    | none => (some indata, w.emit (Event.gimp_image_get_color_profile image_ID false))
  else
    (some indata,
     w.emit (Event.g_printerr "ERROR: Cannot create mux. Can't save features update.\n"))

/-- Lines 281-340 of `save_layer` (compiled under `GIMP_2_9`), entered with
an open stream: the file is read back and, when a mux object can be made of
it and the image has a colour profile, written again with the profile. -/
def save_layer_features (host : Host) (image_ID : Int) (w : World) : World :=
  let w := w.emit Event.fflush
  let indatalen := (w.file.getD []).length
  let w := w.emit (Event.fstat indatalen)
  if 0 < indatalen then
    let w := w.emit (Event.g_malloc_indata indatalen)
    let w := rewind w
    let res : Int := if host.fread_ok then to_int indatalen else 0
    let indata := w.file.getD []
    let w := { (w.emit (Event.fread indatalen res)) with
               pos := if host.fread_ok then indatalen else 0 }
    if 0 < res then
      let (wp_data, w) := save_layer_mux host image_ID indata w
      w.emit (Event.WebPDataClear wp_data)
    else
      w.emit (Event.g_printerr "ERROR: No data read for features. Can't save features update.\n")
  else
    w.emit (Event.g_printerr "ERROR: No data for features. Can't save features update.\n")

/-- Lines 342-355 of `save_layer`: release what was acquired and return. -/
def save_layer_cleanup (l : LayerLocals) (w : World) : Outcome :=
  let w := if l.outfile then w.emit Event.fclose else w
  let w := if l.buffer then w.emit Event.free_buffer else w
  let w := w.emit Event.WebPPictureFree
  Outcome.returned l.status w

/-- Function `save_layer` (lines 129-356).  Under `GIMP_2_9` the statements after the
block use `geglbuffer` and `outfile` without a test: line 277 with an
unassigned `geglbuffer` and line 283 with a `NULL` stream are undefined. -/
def save_layer (host : Host) (filename : String) (nLayers : Int) (image_ID : Int)
    (drawable_ID : Int) (params : WebPSaveParams) (w : World) : Outcome :=
  let (l, w) := save_layer_body host filename drawable_ID params w
  if host.GIMP_2_9 then
    match l.geglbuffer with
    | none => Outcome.undefined w
    | some g =>
      let w := (w.emit (Event.gegl_buffer_flush g)).emit (Event.g_object_unref_buffer g)
      if l.outfile = false then Outcome.undefined w
      else save_layer_cleanup l (save_layer_features host image_ID w)
  else save_layer_cleanup l w

/-! ## The animation path -/

/-- The `WebPConfig` built in each iteration of the loop of `save_animation`
(lines 454-463). -/
def anim_config (params : WebPSaveParams) : WebPConfig :=
  { preset := webp_preset_by_name params.preset, quality := params.quality,
    lossless := params.lossless, method := 6,
    alpha_quality := params.alpha_quality, exact := 1 }

/-- The `WebPPicture` built for one layer in the loop of `save_animation`
(lines 469-511). -/
def anim_picture (host : Host) (layer : Int) : WebPPicture :=
  { use_argb := 1,
    argb_stride := host.gimp_drawable_width layer * host.gimp_drawable_bpp layer,
    width := host.gimp_drawable_width layer,
    height := host.gimp_drawable_height layer,
    writer := Writer.WebPMemoryWrite,
    rgba := decide (host.gimp_drawable_type layer ≠ GIMP_RGB_IMAGE),
    pixels := host.drawable_pixels layer,
    stride := host.gimp_drawable_width layer * host.gimp_drawable_bpp layer }

/-- The state after one pass through the body of the `for` loop of
`save_animation`: whether the pass ended in a `break`, the encoder (`none`
for `NULL`) with the frames it has accepted, and the world. -/
structure AnimStep where
  broke : Bool
  enc : Option (List (WebPPicture × Int))
  world : World

/-- The body of the `for` loop of `save_animation` (lines 415-533) in
iteration `loop`. -/
def save_animation_body (host : Host) (allLayers : List Int) (params : WebPSaveParams)
    (frame_timestamp : Int) (loop : Nat) (enc : Option (List (WebPPicture × Int)))
    (w : World) : AnimStep :=
  let layer := allLayers.getD loop 0
  let w := if host.GIMP_2_9 then w.emit (Event.gimp_drawable_get_buffer layer) else w
  let bpp := host.gimp_drawable_bpp layer
  let wd := host.gimp_drawable_width layer
  let h := host.gimp_drawable_height layer
  if loop = 0 ∧ host.anim_new_ok wd h = false then
    { broke := true, enc := none,
      world := (w.emit (Event.WebPAnimEncoderNew wd h false)).emit
        (Event.g_print "[WebPAnimEncoderNew]ERROR: enc == null\n") }
  else
    let enc := if loop = 0 then some [] else enc
    let w := if loop = 0 then w.emit (Event.WebPAnimEncoderNew wd h true) else w
    let w := w.emit (Event.g_malloc (wd * h * bpp) (host.anim_alloc_ok loop))
    if host.anim_alloc_ok loop = false then
      { broke := true, enc := enc,
        world := w.emit (Event.g_print "Buffer error: 'buffer null'\n") }
    else
      let config := anim_config params
      let picture := anim_picture host layer
      let w :=
        if host.GIMP_2_9 then w.emit (Event.gegl_buffer_get layer)
        else ((w.emit (Event.gimp_drawable_get layer)).emit
          (Event.gimp_pixel_rgn_get_rect layer)).emit (Event.gimp_drawable_detach layer)
      let added := enc.isSome && host.anim_add_ok loop
      let w := w.emit (Event.WebPAnimEncoderAdd enc.isSome (some picture) frame_timestamp
        (some config))
      let enc := if added then enc.map (fun frames => frames ++ [(picture, frame_timestamp)])
        else enc
      let w :=
        if added then w
        else w.emit (Event.g_print ("[WebPAnimEncoderAdd]ERROR["
          ++ toString (host.anim_add_error loop) ++ "]: "
          ++ webp_error_string (host.anim_add_error loop) ++ "\n"))
      let w := ((w.emit Event.WebPMemoryWriterClear).emit Event.WebPPictureFree).emit
        Event.free_buffer
      let w :=
        if host.GIMP_2_9 then
          (w.emit (Event.gegl_buffer_flush layer)).emit (Event.g_object_unref_buffer layer)
        else w
      { broke := false, enc := enc, world := w }

/-- The `for` loop of `save_animation` (lines 414-534) from iteration `loop`
on, with `remaining` iterations to go; a `break` leaves the loop with the
state reached. -/
def save_animation_loop (host : Host) (allLayers : List Int) (params : WebPSaveParams)
    (frame_timestamp : Int) :
    Nat → Nat → Option (List (WebPPicture × Int)) → World →
      Option (List (WebPPicture × Int)) × World
  | 0, _, enc, w => (enc, w)
  | remaining + 1, loop, enc, w =>
    let step := save_animation_body host allLayers params frame_timestamp loop enc w
    if step.broke then (step.enc, step.world)
    else save_animation_loop host allLayers params frame_timestamp remaining (loop + 1)
      step.enc step.world

/-- Lines 536-587 of `save_animation`: the terminating frame, assembly, the
mux step and the write. -/
def save_animation_finish (host : Host) (image_ID : Int) (params : WebPSaveParams)
    (frame_timestamp : Int) (enc : Option (List (WebPPicture × Int))) (w : World) : World :=
  let w := w.emit (Event.WebPAnimEncoderAdd enc.isSome none frame_timestamp none)
  let assembled : Bool × Option Bytes :=
    match enc with
    | some frames => host.anim_assemble frames
    | none => (false, none)
  let webp_data := assembled.2
  let w := w.emit (Event.WebPAnimEncoderAssemble enc.isSome assembled.1 webp_data)
  let w :=
    if assembled.1 = false then
      (w.emit Event.WebPAnimEncoderGetError).emit
        (Event.g_print ("[WebPAnimEncoderAssemble]ERROR: " ++ host.anim_error_string ++ "\n"))
    else w
  let created :=
    match webp_data with
    | some d => host.mux_create_ok d
    | none => false
  let w := w.emit (Event.WebPMuxCreate webp_data created)
  let anim_params : WebPMuxAnimParams :=
    { bgcolor := 0, loop_count := if params.loop = 0 then 1 else 0 }
  let w := w.emit (Event.WebPMuxSetAnimationParams created anim_params)
  let mux : Option WebPMux :=
    if created then some { base := webp_data.getD [], anim := some anim_params, iccp := none }
    else none
  let profile := if host.GIMP_2_9 then host.color_profile image_ID else none
  let w :=
    if host.GIMP_2_9 then
      w.emit (Event.gimp_image_get_color_profile image_ID profile.isSome)
    else w
  let w :=
    match profile with
    | some icc_data =>
      (w.emit (Event.WebPMuxSetChunk created "ICCP" icc_data)).emit Event.g_object_unref_profile
    | none => w
  let mux : Option WebPMux :=
    match profile with
    | some icc_data => mux.map (fun m => { m with iccp := some icc_data })
    | none => mux
  let webp_data := host.mux_assemble mux webp_data
  let w := w.emit (Event.WebPMuxAssemble created webp_data)
  let (_, w) := webp_anim_file_writer webp_data w
  let w := w.emit (Event.WebPDataClear webp_data)
  w.emit (Event.WebPAnimEncoderDelete enc.isSome)

/-- Function `save_animation` (lines 358-598).  The `break`s inside the `for` loop
leave that loop only; the statements behind it run in every case. -/
def save_animation (host : Host) (filename : String) (nLayers : Int) (allLayers : List Int)
    (image_ID : Int) (drawable_ID : Int) (params : WebPSaveParams) (w : World) :
    Bool × World :=
  let frame_timestamp : Int := 0
  let w := w.emit (Event.g_print ("attempting to save (all) " ++ toString nLayers
    ++ " layer(s)\n"))
  if nLayers < 1 then (false, w)
  else
    let w := w.emit (Event.gimp_progress_init_printf
      ("Saving '" ++ host.gimp_filename_to_utf8 filename ++ "'"))
    if host.fopen_ok = false then
      let w := w.emit (Event.g_fopen filename "wb" false)
      let w := g_set_error G_FILE_ERROR host.file_error_code
        ("Unable to open '" ++ host.gimp_filename_to_utf8 filename ++ "' for writing") w
      (false, w)
    else
      let w := fopen_truncate filename "wb" w
      let w := w.emit (Event.WebPAnimEncoderOptionsInit host.anim_options_init_ok)
      if host.anim_options_init_ok = false then
        let w := w.emit (Event.g_print "[WebPAnimEncoderOptionsInit]ERROR: verion mismatch\n")
        (false, w.emit Event.fclose)
      else
        let (enc, w) := save_animation_loop host allLayers params frame_timestamp
          nLayers.toNat 0 none w
        let w := save_animation_finish host image_ID params frame_timestamp enc w
        (true, w.emit Event.fclose)

/-! ## The entry point -/

/-- Lines 646-661 of `save_image` (compiled under `GIMP_2_9`). -/
def save_image_metadata (host : Host) (filename : String) (image_ID : Int)
    (w : World) : World :=
  let found := host.metadata_found image_ID
  let w := w.emit (Event.gimp_image_metadata_save_prepare image_ID found)
  if found then
    (w.emit (Event.gimp_metadata_set_bits_per_sample 8)).emit
      (Event.gimp_image_metadata_save_finish image_ID filename)
  else w

/-- Lines 621-625 of `save_image`: what is done before a path is chosen. -/
def save_image_enter (host : Host) (filename : String) (w : World) : World :=
  let w := if host.GIMP_2_9 then w.emit Event.gegl_init else w
  w.emit (Event.g_print ("Saving WebP file " ++ filename ++ "\n"))

/-- Lines 646-664 of `save_image`: what is done once the chosen path has
come back with `status`. -/
def save_image_return (host : Host) (filename : String) (image_ID : Int) :
    Outcome → Outcome
  | Outcome.undefined w => Outcome.undefined w
  | Outcome.returned status w =>
    let w := if host.GIMP_2_9 then save_image_metadata host filename image_ID w else w
    Outcome.returned status w

/-- Function `save_image` (lines 601-665). -/
def save_image (host : Host) (filename : String) (nLayers : Int) (allLayers : List Int)
    (image_ID : Int) (drawable_ID : Int) (params : WebPSaveParams) (w : World) : Outcome :=
  if nLayers = 0 then Outcome.returned false w
  else
    let w := save_image_enter host filename w
    let r : Outcome :=
      if nLayers = 1 then
        save_layer host filename nLayers image_ID drawable_ID params w
      else if params.animation = 0 then
        save_layer host filename nLayers image_ID drawable_ID params w
      else
        let (status, w) := save_animation host filename nLayers allLayers image_ID
          drawable_ID params w
        Outcome.returned status w
    save_image_return host filename image_ID r

/-! ## Reading outcomes and logs -/

/-- The value a call returned, `none` when it did not return. -/
def Outcome.status : Outcome → Option Bool
  | Outcome.returned status _ => some status
  | Outcome.undefined _ => none

/-- The world a call ended in. -/
def Outcome.world : Outcome → World
  | Outcome.returned _ w => w
  | Outcome.undefined w => w

/-- Is the event a `g_fopen` with this mode? -/
def is_fopen (mode : String) : Event → Bool
  | Event.g_fopen _ m _ => m == mode
  | _ => false

/-- Number of `g_fopen` calls with the given mode in a log.  `save_layer`
opens with `wb+`, `save_animation` with `wb`. -/
def opens (mode : String) (log : List Event) : Nat :=
  log.countP (is_fopen mode)

/-- The events the `for` loop of `save_animation` can emit. -/
def is_loop_event : Event → Bool
  | Event.gimp_drawable_get_buffer _ => true
  | Event.WebPAnimEncoderNew _ _ _ => true
  | Event.g_print _ => true
  | Event.g_malloc _ _ => true
  | Event.gegl_buffer_get _ => true
  | Event.gimp_drawable_get _ => true
  | Event.gimp_pixel_rgn_get_rect _ => true
  | Event.gimp_drawable_detach _ => true
  | Event.WebPAnimEncoderAdd _ _ _ _ => true
  | Event.WebPMemoryWriterClear => true
  | Event.WebPPictureFree => true
  | Event.free_buffer => true
  | Event.gegl_buffer_flush _ => true
  | Event.g_object_unref_buffer _ => true
  | _ => false

/-- The animation parameters handed to `WebPMuxSetAnimationParams`, in call order. -/
def mux_anim_params (log : List Event) : List WebPMuxAnimParams :=
  log.filterMap (fun e =>
    match e with
    | Event.WebPMuxSetAnimationParams _ p => some p
    | _ => none)

/-- The data handed to `webp_anim_file_writer`, in call order. -/
def writer_calls (log : List Event) : List (Option Bytes) :=
  log.filterMap (fun e =>
    match e with
    | Event.webp_anim_file_writer d => some d
    | _ => none)

/-- The results of the `WebPAnimEncoderAssemble` calls, in call order. -/
def assemble_results (log : List Event) : List Bool :=
  log.filterMap (fun e =>
    match e with
    | Event.WebPAnimEncoderAssemble _ ok _ => some ok
    | _ => none)

/-- A call to the animation encoder as seen from outside: a frame handed to
`WebPAnimEncoderAdd` (`none` is the `NULL` frame), or the assembly. -/
inductive AnimCall where
  | add (frame : Option WebPPicture)
  | assemble
  deriving DecidableEq, Repr

/-- The calls to the animation encoder, in call order. -/
def anim_calls (log : List Event) : List AnimCall :=
  log.filterMap (fun e =>
    match e with
    | Event.WebPAnimEncoderAdd _ frame _ _ => some (AnimCall.add frame)
    | Event.WebPAnimEncoderAssemble _ _ _ => some AnimCall.assemble
    | _ => none)

/-- Is the event one of the steps of the colour-profile rewrite of
`save_layer`: `rewind`, `WebPMuxSetChunk`, `WebPMuxAssemble`,
`webp_anim_file_writer`? -/
def is_rewrite_step : Event → Bool
  | Event.rewind => true
  | Event.WebPMuxSetChunk _ _ _ => true
  | Event.WebPMuxAssemble _ _ => true
  | Event.webp_anim_file_writer _ => true
  | _ => false

/-! ## Sample inputs -/

/-- A host in which every call succeeds: a `GIMP_2_9` build, one-pixel RGB
drawables, an encoder that streams two chunks, an image without profile. -/
def sample_host : Host :=
  { GIMP_2_9 := true, gimp_filename_to_utf8 := fun s => s, fopen_ok := true,
    file_error_code := 2, gimp_drawable_type := fun _ => 0,
    gimp_drawable_bpp := fun _ => 3, gimp_drawable_width := fun _ => 1,
    gimp_drawable_height := fun _ => 1, drawable_pixels := fun d => [d.toNat, 0, 0],
    layer_alloc_ok := true, anim_alloc_ok := fun _ => true,
    encode_chunks := fun _ _ => [[82, 73], [70, 70]], encode_error := fun _ _ => 0,
    fread_ok := true, mux_create_ok := fun _ => true, color_profile := fun _ => none,
    mux_assemble := fun m _ => m.map (fun x => x.base ++ x.iccp.getD []),
    anim_options_init_ok := true, anim_new_ok := fun _ _ => true,
    anim_add_ok := fun _ => true, anim_add_error := fun _ => 0,
    anim_assemble := fun frames => (true, some (frames.map (fun f => f.1.pixels.headD 0))),
    anim_error_string := "", metadata_found := fun _ => false }

/-- The world before an export: nothing logged, no error set, no file. -/
def sample_world : World :=
  { log := [], error := none, file := none, pos := 0 }

/-- Parameters asking for a non-looping animation. -/
def sample_params : WebPSaveParams :=
  { preset := "photo", lossless := 0, quality := 90, alpha_quality := 100,
    animation := 1, loop := 0 }


/-- The sample host with an output path that cannot be opened. -/
def unwritable_host : Host :=
  { sample_host with fopen_ok := false }

/-- The sample host with an encoder that is aborted by the user. -/
def abort_host : Host :=
  { sample_host with encode_error := fun _ _ => VP8_ENC_ERROR_USER_ABORT }

/-- The sample host for an image with a three-byte colour profile. -/
def profile_host : Host :=
  { sample_host with color_profile := fun _ => some [9, 8, 7] }

/-- The sample host with an animation encoder that cannot assemble. -/
def no_assembly_host : Host :=
  { sample_host with anim_assemble := fun _ => (false, none) }

/-- The bytes `WebPEncode` hands to the writer in `save_layer`, chunk after chunk. -/
def layer_stream (host : Host) (drawable_ID : Int) (params : WebPSaveParams) : Bytes :=
  (host.encode_chunks (layer_config params) (layer_picture host drawable_ID)).flatten

/-- The world in which `save_layer` calls `WebPEncode`. -/
def layer_encode_world (host : Host) (filename : String) (drawable_ID : Int)
    (w : World) : World :=
  let w := w.emit (Event.gimp_progress_init_printf
    ("Saving '" ++ host.gimp_filename_to_utf8 filename ++ "'"))
  let w := fopen_truncate filename "wb+" w
  let w := if host.GIMP_2_9 then w.emit (Event.gimp_drawable_get_buffer drawable_ID) else w
  let w := w.emit (Event.g_malloc
    (host.gimp_drawable_width drawable_ID * host.gimp_drawable_height drawable_ID
      * host.gimp_drawable_bpp drawable_ID) host.layer_alloc_ok)
  if host.GIMP_2_9 then w.emit (Event.gegl_buffer_get drawable_ID)
  else ((w.emit (Event.gimp_drawable_get drawable_ID)).emit
    (Event.gimp_pixel_rgn_get_rect drawable_ID)).emit
    (Event.gimp_drawable_detach drawable_ID)

/-- The world in which `save_layer` tests the buffer it asked for. -/
def layer_alloc_world (host : Host) (filename : String) (drawable_ID : Int)
    (w : World) : World :=
  let w := w.emit (Event.gimp_progress_init_printf
    ("Saving '" ++ host.gimp_filename_to_utf8 filename ++ "'"))
  let w := fopen_truncate filename "wb+" w
  let w := if host.GIMP_2_9 then w.emit (Event.gimp_drawable_get_buffer drawable_ID) else w
  w.emit (Event.g_malloc
    (host.gimp_drawable_width drawable_ID * host.gimp_drawable_height drawable_ID
      * host.gimp_drawable_bpp drawable_ID) host.layer_alloc_ok)

/-- World `w2` comes from `w1` by logging events that satisfy `P`, with the
error, the file and the stream position as they were. -/
def Extends (P : Event → Prop) (w1 w2 : World) : Prop :=
  w2.error = w1.error ∧ w2.file = w1.file ∧ w2.pos = w1.pos
    ∧ ∃ evs, w2.log = w1.log ++ evs ∧ ∀ e ∈ evs, P e

/-- What holds of every event of the loop of `save_animation` run with
`frame_timestamp = ts`: it is a loop event, and a frame added carries `ts`. -/
def LoopEvent (ts : Int) (e : Event) : Prop :=
  is_loop_event e = true ∧ ∀ p f t c, e = Event.WebPAnimEncoderAdd p f t c → t = ts

/-- What `webp_data` holds when `save_animation` hands it to
`webp_anim_file_writer` (line 582): the output of `WebPMuxAssemble` on the
mux object made of the assembled animation (`NULL` when none could be made),
with the animation parameters and, under `GIMP_2_9`, the colour profile. -/
def anim_final_data (host : Host) (image_ID : Int) (params : WebPSaveParams)
    (enc : Option (List (WebPPicture × Int))) : Option Bytes :=
  let webp_data : Option Bytes :=
    match enc with
    | some frames => (host.anim_assemble frames).2
    | none => none
  let mux : Option WebPMux :=
    match webp_data with
    | some d =>
      if host.mux_create_ok d then
        some { base := d,
               anim := some { bgcolor := 0, loop_count := if params.loop = 0 then 1 else 0 },
               iccp := if host.GIMP_2_9 then host.color_profile image_ID else none }
      else none
    | none => none
  host.mux_assemble mux webp_data

/-- The world in which the `for` loop of `save_animation` starts: the file
is open and the encoder options are initialised. -/
def anim_loop_world (host : Host) (filename : String) (nLayers : Int) (w : World) : World :=
  let w := w.emit (Event.g_print ("attempting to save (all) " ++ toString nLayers
    ++ " layer(s)\n"))
  let w := w.emit (Event.gimp_progress_init_printf
    ("Saving '" ++ host.gimp_filename_to_utf8 filename ++ "'"))
  let w := fopen_truncate filename "wb" w
  w.emit (Event.WebPAnimEncoderOptionsInit host.anim_options_init_ok)

/-- The timestamps of the frames handed to `WebPAnimEncoderAdd` (the
terminating `NULL` frame left out), in call order. -/
def frame_timestamps (log : List Event) : List Int :=
  log.filterMap (fun e =>
    match e with
    | Event.WebPAnimEncoderAdd _ (some _) timestamp _ => some timestamp
    | _ => none)

/-- The ten error codes of `WebPEncodingError`: every enumerator other than
`VP8_ENC_OK` and the terminator `VP8_ENC_ERROR_LAST`. -/
def encoder_error_codes : List Int :=
  [VP8_ENC_ERROR_OUT_OF_MEMORY, VP8_ENC_ERROR_BITSTREAM_OUT_OF_MEMORY,
   VP8_ENC_ERROR_NULL_PARAMETER, VP8_ENC_ERROR_INVALID_CONFIGURATION,
   VP8_ENC_ERROR_BAD_DIMENSION, VP8_ENC_ERROR_PARTITION0_OVERFLOW,
   VP8_ENC_ERROR_PARTITION_OVERFLOW, VP8_ENC_ERROR_BAD_WRITE,
   VP8_ENC_ERROR_FILE_TOO_BIG, VP8_ENC_ERROR_USER_ABORT]

/-! ## Resources -/

/-- The kinds of resource a call acquires and has to give back: the output
stream, a pixel buffer, a GEGL buffer reference (`GIMP_2_9`), an animation
encoder, a mux object. -/
inductive Resource where
  | file
  | pixel_buffer
  | gegl_buffer
  | anim_encoder
  | mux
  deriving DecidableEq, Repr

/-- The resource an event acquires: a `g_fopen` that returned a stream, a
`g_malloc` that returned a pixel buffer, `gimp_drawable_get_buffer`, a
`WebPAnimEncoderNew` or `WebPMuxCreate` that returned an object. -/
def acquires : Event → Option Resource
  | Event.g_fopen _ _ true => some Resource.file
  | Event.g_malloc _ true => some Resource.pixel_buffer
  | Event.gimp_drawable_get_buffer _ => some Resource.gegl_buffer
  | Event.WebPAnimEncoderNew _ _ true => some Resource.anim_encoder
  | Event.WebPMuxCreate _ true => some Resource.mux
  | _ => none

/-- The resource an event releases: `fclose`, `free(buffer)`,
`g_object_unref(geglbuffer)`, `WebPAnimEncoderDelete` of an encoder that is
not `NULL`.  `webp-save.c` has no call that deletes a mux object
(`WebPMuxDelete` does not occur in it), so no event releases one. -/
def releases : Event → Option Resource
  | Event.fclose => some Resource.file
  | Event.free_buffer => some Resource.pixel_buffer
  | Event.g_object_unref_buffer _ => some Resource.gegl_buffer
  | Event.WebPAnimEncoderDelete true => some Resource.anim_encoder
  | _ => none

/-- Number of acquisitions of a resource of kind `r` in a log. -/
def acquired (r : Resource) (log : List Event) : Nat :=
  log.countP (fun e => decide (acquires e = some r))

/-- Number of releases of a resource of kind `r` in a log. -/
def released (r : Resource) (log : List Event) : Nat :=
  log.countP (fun e => decide (releases e = some r))

/-- The sample host with an animation encoder that cannot be created. -/
def no_encoder_host : Host :=
  { sample_host with anim_new_ok := fun _ _ => false }

/-- The pictures of the frames the animation encoder accepts in the first `n`
passes of the loop of `save_animation`, in order: the picture of
`allLayers[i]` for every `i < n` whose `WebPAnimEncoderAdd` succeeds. -/
def accepted_pictures (host : Host) (allLayers : List Int) (n : Nat) : List WebPPicture :=
  (List.range n).filterMap (fun i =>
    if host.anim_add_ok i then some (anim_picture host (allLayers.getD i 0)) else none)

/-! ## Frame lemmas for the primitive operations -/

@[simp] theorem emit_log (w : World) (e : Event) : (w.emit e).log = w.log ++ [e] := rfl
@[simp] theorem emit_error (w : World) (e : Event) : (w.emit e).error = w.error := rfl
@[simp] theorem emit_file (w : World) (e : Event) : (w.emit e).file = w.file := rfl
@[simp] theorem emit_pos (w : World) (e : Event) : (w.emit e).pos = w.pos := rfl

@[simp] theorem g_set_error_log (d : String) (c : Int) (m : String) (w : World) :
    (g_set_error d c m w).log = w.log ++ [Event.g_set_error d c m] := by
  unfold g_set_error
  cases h : w.error <;> simp [World.emit, h]

@[simp] theorem g_set_error_file (d : String) (c : Int) (m : String) (w : World) :
    (g_set_error d c m w).file = w.file := by
  unfold g_set_error
  cases h : w.error <;> simp [World.emit, h]

theorem g_set_error_of_unset (d : String) (c : Int) (m : String) (w : World)
    (h : w.error = none) :
    (g_set_error d c m w).error = some { domain := d, code := c, message := m } := by
  simp [g_set_error, World.emit, h]

@[simp] theorem fopen_truncate_log (f m : String) (w : World) :
    (fopen_truncate f m w).log = w.log ++ [Event.g_fopen f m true] := rfl
@[simp] theorem fopen_truncate_error (f m : String) (w : World) :
    (fopen_truncate f m w).error = w.error := rfl
@[simp] theorem fopen_truncate_file (f m : String) (w : World) :
    (fopen_truncate f m w).file = some [] := rfl
@[simp] theorem fopen_truncate_pos (f m : String) (w : World) :
    (fopen_truncate f m w).pos = 0 := rfl

@[simp] theorem rewind_log (w : World) : (rewind w).log = w.log ++ [Event.rewind] := rfl
@[simp] theorem rewind_error (w : World) : (rewind w).error = w.error := rfl
@[simp] theorem rewind_file (w : World) : (rewind w).file = w.file := rfl
@[simp] theorem rewind_pos (w : World) : (rewind w).pos = 0 := rfl

@[simp] theorem fwrite_fst (d : Bytes) (w : World) : (fwrite d w).1 = d.length := rfl
@[simp] theorem fwrite_log (d : Bytes) (w : World) :
    (fwrite d w).2.log = w.log ++ [Event.fwrite d] := rfl
@[simp] theorem fwrite_error (d : Bytes) (w : World) : (fwrite d w).2.error = w.error := rfl
@[simp] theorem fwrite_pos (d : Bytes) (w : World) :
    (fwrite d w).2.pos = w.pos + d.length := rfl
@[simp] theorem fwrite_file (d : Bytes) (w : World) :
    (fwrite d w).2.file
      = some ((w.file.getD []).take w.pos ++ d ++ (w.file.getD []).drop (w.pos + d.length)) :=
  rfl

/-- The file writer accepts every chunk. -/
@[simp] theorem webp_file_writer_fst (d : Bytes) (w : World) :
    (webp_file_writer d w).1 = true := by
  simp [webp_file_writer]

@[simp] theorem webp_file_writer_snd (d : Bytes) (w : World) :
    (webp_file_writer d w).2 = (fwrite d w).2 := rfl

/-- Writing at the end of the file appends. -/
theorem fwrite_at_end (d : Bytes) (w : World) (old : Bytes) (hf : w.file = some old)
    (hp : w.pos = old.length) :
    (fwrite d w).2.file = some (old ++ d) ∧ (fwrite d w).2.pos = (old ++ d).length := by
  simp [hf, hp]

/-- The writer loop of `WebPEncode` delivers every chunk: it reports success, leaves
the error untouched, and a stream standing at the end of the file ends up
holding the old bytes followed by all chunks. -/
theorem write_chunks_spec (cs : List Bytes) (w : World) (old : Bytes)
    (hf : w.file = some old) (hp : w.pos = old.length) :
    (write_chunks cs w).1 = true ∧ (write_chunks cs w).2.error = w.error
      ∧ (write_chunks cs w).2.file = some (old ++ cs.flatten)
      ∧ (write_chunks cs w).2.pos = (old ++ cs.flatten).length
      ∧ (write_chunks cs w).2.log = w.log ++ cs.map Event.fwrite := by
  induction cs generalizing w old with
  | nil => simp [write_chunks, hf, hp]
  | cons c cs ih =>
    have h := fwrite_at_end c w old hf hp
    have ih' := ih (fwrite c w).2 (old ++ c) h.1 h.2
    simp only [write_chunks, webp_file_writer_fst, webp_file_writer_snd, if_true]
    simp [ih', List.append_assoc]

/-- The result code of `WebPEncode` is the encoder's own code. -/
theorem WebPEncode_fst (host : Host) (c : WebPConfig) (p : WebPPicture) (w : World)
    (old : Bytes) (hf : w.file = some old) (hp : w.pos = old.length) :
    (WebPEncode host c p w).1 = host.encode_error c p := by
  have h := write_chunks_spec (host.encode_chunks c p) w old hf hp
  simp [WebPEncode, h.1]

theorem WebPEncode_snd (host : Host) (c : WebPConfig) (p : WebPPicture) (w : World)
    (old : Bytes) (hf : w.file = some old) (hp : w.pos = old.length) :
    (WebPEncode host c p w).2.error = w.error
      ∧ (WebPEncode host c p w).2.file = some (old ++ (host.encode_chunks c p).flatten)
      ∧ (WebPEncode host c p w).2.pos = (old ++ (host.encode_chunks c p).flatten).length
      ∧ (WebPEncode host c p w).2.log
          = w.log ++ (host.encode_chunks c p).map Event.fwrite
            ++ [Event.WebPEncode c p (decide (host.encode_error c p = VP8_ENC_OK))] := by
  have h := write_chunks_spec (host.encode_chunks c p) w old hf hp
  simp [WebPEncode, h.1, h.2.1, h.2.2.1, h.2.2.2.1, h.2.2.2.2]

/-! ## The block of `save_layer` -/

theorem layer_encode_world_file (host : Host) (filename : String) (d : Int) (w : World) :
    (layer_encode_world host filename d w).file = some []
      ∧ (layer_encode_world host filename d w).pos = 0
      ∧ (layer_encode_world host filename d w).error = w.error := by
  unfold layer_encode_world
  cases host.GIMP_2_9 <;> simp

/-- The block of `save_layer` when the file cannot be opened. -/
theorem save_layer_body_fopen_failed (host : Host) (filename : String) (d : Int)
    (params : WebPSaveParams) (w : World) (hopen : host.fopen_ok = false) :
    save_layer_body host filename d params w
      = ({ status := false, outfile := false, buffer := false, geglbuffer := none },
         g_set_error G_FILE_ERROR host.file_error_code
           ("Unable to open '" ++ host.gimp_filename_to_utf8 filename ++ "' for writing")
           ((w.emit (Event.gimp_progress_init_printf
              ("Saving '" ++ host.gimp_filename_to_utf8 filename ++ "'"))).emit
            (Event.g_fopen filename "wb+" false))) := by
  simp [save_layer_body, hopen]

theorem layer_alloc_world_file (host : Host) (filename : String) (d : Int) (w : World) :
    (layer_alloc_world host filename d w).file = some []
      ∧ (layer_alloc_world host filename d w).pos = 0
      ∧ (layer_alloc_world host filename d w).error = w.error := by
  unfold layer_alloc_world
  cases host.GIMP_2_9 <;> simp

/-- The block of `save_layer` when the buffer cannot be allocated. -/
theorem save_layer_body_alloc_failed (host : Host) (filename : String) (d : Int)
    (params : WebPSaveParams) (w : World) (hopen : host.fopen_ok = true)
    (halloc : host.layer_alloc_ok = false) :
    save_layer_body host filename d params w
      = ({ status := false, outfile := true, buffer := false,
           geglbuffer := if host.GIMP_2_9 then some d else none },
         layer_alloc_world host filename d w) := by
  simp only [save_layer_body, hopen, halloc, Bool.true_eq_false, if_false, if_true,
    layer_alloc_world]

/-- The block of `save_layer` when `WebPEncode` is reached. -/
theorem save_layer_body_encoded (host : Host) (filename : String) (d : Int)
    (params : WebPSaveParams) (w : World) (hopen : host.fopen_ok = true)
    (halloc : host.layer_alloc_ok = true) :
    save_layer_body host filename d params w
      = (let r := WebPEncode host (layer_config params) (layer_picture host d)
                    (layer_encode_world host filename d w)
         if r.1 ≠ VP8_ENC_OK then
           ({ status := false, outfile := true, buffer := true,
              geglbuffer := if host.GIMP_2_9 then some d else none },
            g_set_error G_FILE_ERROR r.1 ("WebP error: '" ++ webp_error_string r.1 ++ "'")
              (r.2.emit (Event.g_print ("WebP error: '" ++ webp_error_string r.1 ++ "'"))))
         else
           ({ status := true, outfile := true, buffer := true,
              geglbuffer := if host.GIMP_2_9 then some d else none }, r.2)) := by
  simp only [save_layer_body, hopen, halloc, Bool.true_eq_false, if_false, layer_encode_world]

/-! ## The colour-profile step of `save_layer` -/

theorem webp_anim_file_writer_error (d : Option Bytes) (w : World) :
    (webp_anim_file_writer d w).2.error = w.error := by
  cases d <;> simp [webp_anim_file_writer]

theorem save_layer_mux_error (host : Host) (image_ID : Int) (indata : Bytes) (w : World) :
    (save_layer_mux host image_ID indata w).2.error = w.error := by
  unfold save_layer_mux
  cases host.mux_create_ok indata <;> cases host.color_profile image_ID <;>
    simp [webp_anim_file_writer_error]

/-- The colour-profile step never touches the error. -/
theorem save_layer_features_error (host : Host) (image_ID : Int) (w : World) :
    (save_layer_features host image_ID w).error = w.error := by
  unfold save_layer_features
  by_cases h1 : 0 < (w.file.getD []).length
  · by_cases h2 : (0 : Int) < (if host.fread_ok = true then to_int (w.file.getD []).length else 0)
    · simp [h1, h2, save_layer_mux_error]
    · simp [h1, h2]
  · simp [h1]

/-- Without a profile, or without a mux object, the mux step writes nothing. -/
theorem save_layer_mux_passthrough (host : Host) (image_ID : Int) (indata : Bytes)
    (w : World)
    (h : host.color_profile image_ID = none ∨ host.mux_create_ok indata = false) :
    (save_layer_mux host image_ID indata w).2.file = w.file
      ∧ writer_calls (save_layer_mux host image_ID indata w).2.log = writer_calls w.log := by
  unfold save_layer_mux writer_calls
  rcases h with h | h
  · cases hm : host.mux_create_ok indata <;> simp [h, hm]
  · simp [h]

/-- Without a profile, or when no mux object can be made of the bytes read
back, the colour-profile step leaves the file as it is and does not call the
writer. -/
theorem save_layer_features_passthrough (host : Host) (image_ID : Int) (w : World)
    (h : host.color_profile image_ID = none ∨ host.mux_create_ok (w.file.getD []) = false) :
    (save_layer_features host image_ID w).file = w.file
      ∧ writer_calls (save_layer_features host image_ID w).log = writer_calls w.log := by
  unfold save_layer_features
  by_cases h1 : 0 < (w.file.getD []).length
  · by_cases h2 : (0 : Int) < (if host.fread_ok = true then to_int (w.file.getD []).length else 0)
    · have hm := save_layer_mux_passthrough host image_ID (w.file.getD [])
        ({ ((rewind ((w.emit Event.fflush).emit (Event.fstat (w.file.getD []).length)
              |>.emit (Event.g_malloc_indata (w.file.getD []).length))).emit
            (Event.fread (w.file.getD []).length
              (if host.fread_ok = true then to_int (w.file.getD []).length else 0))) with
            pos := if host.fread_ok = true then (w.file.getD []).length else 0 }) h
      simp only [h1, h2, if_true, emit_file, emit_log, rewind_file, rewind_log] at hm ⊢
      constructor
      · simpa using hm.1
      · simp only [writer_calls] at hm ⊢
        simpa using hm.2
    · simp [h1, h2, writer_calls]
  · simp [h1, writer_calls]

/-- When the colour-profile step calls the writer, a mux object was made of
the bytes read back, the image has a profile, and the step went: `rewind`
(before reading), `WebPMuxSetChunk` of `ICCP` with the profile bytes,
`WebPMuxAssemble`, `rewind`, `webp_anim_file_writer`. -/
theorem save_layer_features_rewrite (host : Host) (image_ID : Int) (w : World)
    (h : writer_calls (save_layer_features host image_ID w).log ≠ writer_calls w.log) :
    host.mux_create_ok (w.file.getD []) = true ∧
    ∃ icc, host.color_profile image_ID = some icc ∧
      (save_layer_features host image_ID w).log.filter is_rewrite_step
        = w.log.filter is_rewrite_step ++
          [Event.rewind, Event.WebPMuxSetChunk true "ICCP" icc,
           Event.WebPMuxAssemble true
             (host.mux_assemble (some { base := w.file.getD [], anim := none, iccp := some icc })
               (some (w.file.getD []))),
           Event.rewind,
           Event.webp_anim_file_writer
             (host.mux_assemble (some { base := w.file.getD [], anim := none, iccp := some icc })
               (some (w.file.getD [])))] := by
  cases hm : host.mux_create_ok (w.file.getD []) with
  | false => exact absurd (save_layer_features_passthrough host image_ID w (Or.inr hm)).2 h
  | true =>
    cases hp : host.color_profile image_ID with
    | none => exact absurd (save_layer_features_passthrough host image_ID w (Or.inl hp)).2 h
    | some icc =>
      refine ⟨rfl, icc, rfl, ?_⟩
      unfold save_layer_features at h ⊢
      by_cases h1 : 0 < (w.file.getD []).length
      · by_cases h2 : (0 : Int) <
            (if host.fread_ok = true then to_int (w.file.getD []).length else 0)
        · simp only [h1, h2, if_true, save_layer_mux, emit_file, rewind_file, hm, hp]
          cases ha : host.mux_assemble
              (some { base := w.file.getD [], anim := none, iccp := some icc })
              (some (w.file.getD [])) <;>
            simp [webp_anim_file_writer, is_rewrite_step, List.filter_cons, fwrite, World.emit,
              rewind]
        · exact absurd (by simp [h1, h2, writer_calls]) h
      · exact absurd (by simp [h1, writer_calls]) h

/-! ## `save_layer` as a whole -/

@[simp] theorem save_layer_cleanup_status (l : LayerLocals) (w : World) :
    (save_layer_cleanup l w).status = some l.status := rfl

theorem save_layer_cleanup_world (l : LayerLocals) (w : World) :
    (save_layer_cleanup l w).world.file = w.file
      ∧ (save_layer_cleanup l w).world.error = w.error
      ∧ writer_calls (save_layer_cleanup l w).world.log = writer_calls w.log
      ∧ (save_layer_cleanup l w).world.log.filter is_rewrite_step
          = w.log.filter is_rewrite_step := by
  unfold save_layer_cleanup
  cases l.outfile <;> cases l.buffer <;>
    simp [Outcome.world, writer_calls, is_rewrite_step, List.filter_cons]

theorem save_layer_cleanup_eq (l : LayerLocals) (w : World) :
    save_layer_cleanup l w
      = Outcome.returned l.status (save_layer_cleanup l w).world := rfl

/-- The file-related locals after the block, when the file was opened. -/
theorem save_layer_body_locals (host : Host) (filename : String) (d : Int)
    (params : WebPSaveParams) (w : World) (hopen : host.fopen_ok = true) :
    (save_layer_body host filename d params w).1.outfile = true
      ∧ (save_layer_body host filename d params w).1.geglbuffer
          = (if host.GIMP_2_9 then some d else none) := by
  cases halloc : host.layer_alloc_ok with
  | false => simp [save_layer_body_alloc_failed host filename d params w hopen halloc]
  | true =>
    rw [save_layer_body_encoded host filename d params w hopen halloc]
    by_cases hc : (WebPEncode host (layer_config params) (layer_picture host d)
        (layer_encode_world host filename d w)).1 = VP8_ENC_OK
    · simp [hc]
    · simp [hc]

/-- With the file open, a `GIMP_2_9` build goes through the colour-profile
step and the cleanup. -/
theorem save_layer_opened_2_9 (host : Host) (filename : String) (nLayers image_ID d : Int)
    (params : WebPSaveParams) (w : World) (h29 : host.GIMP_2_9 = true)
    (hopen : host.fopen_ok = true) :
    save_layer host filename nLayers image_ID d params w
      = save_layer_cleanup (save_layer_body host filename d params w).1
          (save_layer_features host image_ID
            (((save_layer_body host filename d params w).2.emit
              (Event.gegl_buffer_flush d)).emit (Event.g_object_unref_buffer d))) := by
  have hl := save_layer_body_locals host filename d params w hopen
  simp only [h29, if_true] at hl
  unfold save_layer
  simp [h29, hl.1, hl.2]

/-- Without `GIMP_2_9` the block is followed by the cleanup alone. -/
theorem save_layer_plain (host : Host) (filename : String) (nLayers image_ID d : Int)
    (params : WebPSaveParams) (w : World) (h29 : host.GIMP_2_9 = false) :
    save_layer host filename nLayers image_ID d params w
      = save_layer_cleanup (save_layer_body host filename d params w).1
          (save_layer_body host filename d params w).2 := by
  unfold save_layer
  simp [h29]

/-- In a `GIMP_2_9` build a failed `g_fopen` leads to line 277 with
`geglbuffer` unassigned. -/
theorem save_layer_fopen_failed_2_9 (host : Host) (filename : String)
    (nLayers image_ID d : Int) (params : WebPSaveParams) (w : World)
    (h29 : host.GIMP_2_9 = true) (hopen : host.fopen_ok = false) :
    (save_layer host filename nLayers image_ID d params w).status = none := by
  unfold save_layer
  simp [save_layer_body_fopen_failed host filename d params w hopen, h29, Outcome.status]

theorem fwrite_events_quiet (cs : List Bytes) :
    writer_calls (cs.map Event.fwrite) = [] ∧
      (cs.map Event.fwrite).filter is_rewrite_step = [] := by
  induction cs with
  | nil => simp [writer_calls]
  | cons c cs ih =>
    simp only [writer_calls] at ih ⊢
    simp [ih.1, ih.2, is_rewrite_step, List.filter_cons]

theorem writer_calls_append (a b : List Event) :
    writer_calls (a ++ b) = writer_calls a ++ writer_calls b := by
  simp [writer_calls]

/-- After a successful open and allocation the block leaves the streamed
bytes in the file, keeps the stream at their end, and neither calls
`webp_anim_file_writer` nor makes a rewrite step. -/
theorem save_layer_body_stream (host : Host) (filename : String) (d : Int)
    (params : WebPSaveParams) (w : World) (hopen : host.fopen_ok = true)
    (halloc : host.layer_alloc_ok = true) :
    (save_layer_body host filename d params w).2.file = some (layer_stream host d params)
      ∧ writer_calls (save_layer_body host filename d params w).2.log = writer_calls w.log
      ∧ (save_layer_body host filename d params w).2.log.filter is_rewrite_step
          = w.log.filter is_rewrite_step := by
  have hw := layer_encode_world_file host filename d w
  have hs := WebPEncode_snd host (layer_config params) (layer_picture host d)
    (layer_encode_world host filename d w) [] hw.1 (by simp [hw.2.1])
  have hq := fwrite_events_quiet (host.encode_chunks (layer_config params) (layer_picture host d))
  have hlog : writer_calls (layer_encode_world host filename d w).log = writer_calls w.log
      ∧ (layer_encode_world host filename d w).log.filter is_rewrite_step
          = w.log.filter is_rewrite_step := by
    unfold layer_encode_world
    cases host.GIMP_2_9 <;> simp [writer_calls, is_rewrite_step, List.filter_cons]
  rw [save_layer_body_encoded host filename d params w hopen halloc]
  by_cases hc : (WebPEncode host (layer_config params) (layer_picture host d)
      (layer_encode_world host filename d w)).1 = VP8_ENC_OK
  · simp only [hc, ne_eq, not_true_eq_false, if_false, hs.2.1, hs.2.2.2, List.nil_append,
      writer_calls_append, List.filter_append, hq.1, hq.2, hlog.1, hlog.2, layer_stream]
    simp [writer_calls, is_rewrite_step, List.filter_cons]
  · simp only [hc, ne_eq, not_false_eq_true, if_true, g_set_error_file, g_set_error_log,
      emit_file, emit_log, hs.2.1, hs.2.2.2, List.nil_append,
      writer_calls_append, List.filter_append, hq.1, hq.2, hlog.1, hlog.2, layer_stream]
    simp [writer_calls, is_rewrite_step, List.filter_cons]

/-- The status of `save_layer` once the file is open: `TRUE` exactly when the
buffer was allocated and `WebPEncode` succeeded, in either build and whatever
the colour-profile step meets. -/
theorem save_layer_status_opened (host : Host) (filename : String) (nLayers image_ID d : Int)
    (params : WebPSaveParams) (w : World) (hopen : host.fopen_ok = true) :
    (save_layer host filename nLayers image_ID d params w).status
      = some (host.layer_alloc_ok &&
          decide (host.encode_error (layer_config params) (layer_picture host d) = VP8_ENC_OK)) := by
  have hb : (save_layer_body host filename d params w).1.status
      = (host.layer_alloc_ok &&
          decide (host.encode_error (layer_config params) (layer_picture host d) = VP8_ENC_OK)) := by
    cases halloc : host.layer_alloc_ok with
    | false => simp [save_layer_body_alloc_failed host filename d params w hopen halloc]
    | true =>
      have hw := layer_encode_world_file host filename d w
      have hf := WebPEncode_fst host (layer_config params) (layer_picture host d)
        (layer_encode_world host filename d w) [] hw.1 (by simp [hw.2.1])
      rw [save_layer_body_encoded host filename d params w hopen halloc]
      by_cases hc : host.encode_error (layer_config params) (layer_picture host d) = VP8_ENC_OK
      · simp [hf, hc]
      · simp [hf, hc]
  cases h29 : host.GIMP_2_9 with
  | true => rw [save_layer_opened_2_9 host filename nLayers image_ID d params w h29 hopen]; simp [hb]
  | false => rw [save_layer_plain host filename nLayers image_ID d params w h29]; simp [hb]

/-- Without `GIMP_2_9` a failed `g_fopen` makes `save_layer` return `FALSE`
with the error set. -/
theorem save_layer_fopen_failed_plain (host : Host) (filename : String)
    (nLayers image_ID d : Int) (params : WebPSaveParams) (w : World)
    (h29 : host.GIMP_2_9 = false) (hopen : host.fopen_ok = false) (herr : w.error = none) :
    (save_layer host filename nLayers image_ID d params w).status = some false
      ∧ (save_layer host filename nLayers image_ID d params w).world.error
          = some { domain := G_FILE_ERROR, code := host.file_error_code,
                   message := "Unable to open '" ++ host.gimp_filename_to_utf8 filename
                     ++ "' for writing" } := by
  rw [save_layer_plain host filename nLayers image_ID d params w h29,
    save_layer_body_fopen_failed host filename d params w hopen]
  refine ⟨rfl, ?_⟩
  rw [(save_layer_cleanup_world _ _).2.1]
  exact g_set_error_of_unset _ _ _ _ (by simp [herr])

/-! ## Claims about `save_layer` -/

/-- C3 (evaluation at the failing input).  In a `GIMP_2_9` build, with an
output path that cannot be opened, `save_layer` sets the error and then
reaches line 277 with `geglbuffer` unassigned: the call does not return
`FALSE`, it is undefined. -/
theorem save_layer_unwritable_path_undefined :
    unwritable_host.GIMP_2_9 = true ∧ unwritable_host.fopen_ok = false
      ∧ (save_layer unwritable_host "out.webp" 1 1 1 sample_params sample_world).status = none
      ∧ (save_layer unwritable_host "out.webp" 1 1 1 sample_params sample_world).world.error
          = some { domain := G_FILE_ERROR, code := 2,
                   message := "Unable to open 'out.webp' for writing" } := by
  decide

/-- C4 (counterexample).  When the encoder is aborted by the user,
`save_layer` returns `FALSE` and the message it stores is
`WebP error: 'user aborted encoding'`, not the mapped string
`user aborted encoding` itself. -/
theorem save_layer_abort_message_is_wrapped :
    (save_layer abort_host "out.webp" 1 1 1 sample_params sample_world).status = some false
      ∧ (save_layer abort_host "out.webp" 1 1 1 sample_params sample_world).world.error.map
          (fun e => e.message) = some "WebP error: 'user aborted encoding'"
      ∧ (save_layer abort_host "out.webp" 1 1 1 sample_params sample_world).world.error.map
          (fun e => e.message) ≠ some (webp_error_string VP8_ENC_ERROR_USER_ABORT) := by
  decide

/-- C4 (amended).  When the file is open, the buffer allocated, and
`WebPEncode` fails with code `e`, `save_layer` returns `FALSE` and, the error
location being empty before, stores the error with domain `G_FILE_ERROR`,
code `e` and the message `WebP error: '` followed by `webp_error_string e`
and a closing quote; for `VP8_ENC_ERROR_USER_ABORT` that message is
`WebP error: 'user aborted encoding'`. -/
theorem save_layer_encode_failure_message (host : Host) (filename : String)
    (nLayers image_ID drawable_ID : Int) (params : WebPSaveParams) (w : World) (e : Int)
    (hopen : host.fopen_ok = true) (halloc : host.layer_alloc_ok = true)
    (hfail : host.encode_error (layer_config params) (layer_picture host drawable_ID) = e)
    (hne : e ≠ VP8_ENC_OK) (herr : w.error = none) :
    (save_layer host filename nLayers image_ID drawable_ID params w).status = some false
      ∧ (save_layer host filename nLayers image_ID drawable_ID params w).world.error
          = some { domain := G_FILE_ERROR, code := e,
                   message := "WebP error: '" ++ webp_error_string e ++ "'" }
      ∧ (e = VP8_ENC_ERROR_USER_ABORT →
          (save_layer host filename nLayers image_ID drawable_ID params w).world.error
            = some { domain := G_FILE_ERROR, code := VP8_ENC_ERROR_USER_ABORT,
                     message := "WebP error: 'user aborted encoding'" }) := by
  have hw := layer_encode_world_file host filename drawable_ID w
  have hf := WebPEncode_fst host (layer_config params) (layer_picture host drawable_ID)
    (layer_encode_world host filename drawable_ID w) [] hw.1 (by simp [hw.2.1])
  have hs := WebPEncode_snd host (layer_config params) (layer_picture host drawable_ID)
    (layer_encode_world host filename drawable_ID w) [] hw.1 (by simp [hw.2.1])
  rw [hfail] at hf
  have hbody := save_layer_body_encoded host filename drawable_ID params w hopen halloc
  simp only [hf, ne_eq, hne, not_false_eq_true, if_true] at hbody
  have hstatus := save_layer_status_opened host filename nLayers image_ID drawable_ID params w
    hopen
  have herror : (save_layer host filename nLayers image_ID drawable_ID params w).world.error
      = some { domain := G_FILE_ERROR, code := e,
               message := "WebP error: '" ++ webp_error_string e ++ "'" } := by
    cases h29 : host.GIMP_2_9 with
    | true =>
      rw [save_layer_opened_2_9 host filename nLayers image_ID drawable_ID params w h29 hopen,
        (save_layer_cleanup_world _ _).2.1, save_layer_features_error, hbody]
      simp only [emit_error]
      exact g_set_error_of_unset _ _ _ _ (by simp [hs.1, hw.2.2, herr])
    | false =>
      rw [save_layer_plain host filename nLayers image_ID drawable_ID params w h29,
        (save_layer_cleanup_world _ _).2.1, hbody]
      exact g_set_error_of_unset _ _ _ _ (by simp [hs.1, hw.2.2, herr])
  refine ⟨?_, herror, ?_⟩
  · rw [hstatus, halloc, hfail]
    simp [hne]
  · intro hab
    rw [herror, hab]
    rfl

/-- C4 (witness).  The amended statement at the sample host whose encoder is
aborted by the user. -/
theorem save_layer_encode_failure_message_witness :
    (save_layer abort_host "out.webp" 1 1 1 sample_params sample_world).status = some false
      ∧ (save_layer abort_host "out.webp" 1 1 1 sample_params sample_world).world.error
          = some { domain := G_FILE_ERROR, code := 10,
                   message := "WebP error: '" ++ webp_error_string 10 ++ "'" }
      ∧ ((10 : Int) = VP8_ENC_ERROR_USER_ABORT →
          (save_layer abort_host "out.webp" 1 1 1 sample_params sample_world).world.error
            = some { domain := G_FILE_ERROR, code := VP8_ENC_ERROR_USER_ABORT,
                     message := "WebP error: 'user aborted encoding'" }) :=
  save_layer_encode_failure_message abort_host "out.webp" 1 1 1 sample_params sample_world 10
    (by decide) (by decide) (by decide) (by decide) (by decide)

/-- C9.  In a `GIMP_2_9` build, with the file open and the buffer allocated,
`save_layer` returns, and: when the image has no colour profile or no mux
object can be made of the streamed bytes, the file ends up holding exactly
the bytes `WebPEncode` streamed and `webp_anim_file_writer` is not called;
when `webp_anim_file_writer` is called, a mux object was made, the image has
a profile, and the steps were `rewind` (to read back), `WebPMuxSetChunk` of
`ICCP` with exactly the profile bytes, `WebPMuxAssemble`, `rewind`,
`webp_anim_file_writer`, in this order. -/
theorem save_layer_profile_step (host : Host) (filename : String)
    (nLayers image_ID drawable_ID : Int) (params : WebPSaveParams) (w : World)
    (h29 : host.GIMP_2_9 = true) (hopen : host.fopen_ok = true)
    (halloc : host.layer_alloc_ok = true) :
    (save_layer host filename nLayers image_ID drawable_ID params w).status.isSome = true
      ∧ ((host.color_profile image_ID = none
            ∨ host.mux_create_ok (layer_stream host drawable_ID params) = false) →
          (save_layer host filename nLayers image_ID drawable_ID params w).world.file
              = some (layer_stream host drawable_ID params)
            ∧ writer_calls (save_layer host filename nLayers image_ID drawable_ID params w).world.log
              = writer_calls w.log)
      ∧ (writer_calls (save_layer host filename nLayers image_ID drawable_ID params w).world.log
            ≠ writer_calls w.log →
          host.mux_create_ok (layer_stream host drawable_ID params) = true
            ∧ ∃ icc, host.color_profile image_ID = some icc
              ∧ (save_layer host filename nLayers image_ID drawable_ID params w).world.log.filter
                  is_rewrite_step
                = w.log.filter is_rewrite_step ++
                  [Event.rewind, Event.WebPMuxSetChunk true "ICCP" icc,
                   Event.WebPMuxAssemble true
                     (host.mux_assemble
                       (some { base := layer_stream host drawable_ID params, anim := none,
                               iccp := some icc })
                       (some (layer_stream host drawable_ID params))),
                   Event.rewind,
                   Event.webp_anim_file_writer
                     (host.mux_assemble
                       (some { base := layer_stream host drawable_ID params, anim := none,
                               iccp := some icc })
                       (some (layer_stream host drawable_ID params)))]) := by
  have hb := save_layer_body_stream host filename drawable_ID params w hopen halloc
  have heq := save_layer_opened_2_9 host filename nLayers image_ID drawable_ID params w h29 hopen
  have hfile : ((((save_layer_body host filename drawable_ID params w).2.emit
      (Event.gegl_buffer_flush drawable_ID)).emit
      (Event.g_object_unref_buffer drawable_ID)).file.getD [])
      = layer_stream host drawable_ID params := by
    simp [hb.1]
  have hwc : writer_calls (((save_layer_body host filename drawable_ID params w).2.emit
      (Event.gegl_buffer_flush drawable_ID)).emit
      (Event.g_object_unref_buffer drawable_ID)).log = writer_calls w.log := by
    rw [← hb.2.1]
    simp [writer_calls]
  have hrs : (((save_layer_body host filename drawable_ID params w).2.emit
      (Event.gegl_buffer_flush drawable_ID)).emit
      (Event.g_object_unref_buffer drawable_ID)).log.filter is_rewrite_step
      = w.log.filter is_rewrite_step := by
    rw [← hb.2.2]
    simp [is_rewrite_step, List.filter_cons]
  refine ⟨?_, ?_, ?_⟩
  · rw [save_layer_status_opened host filename nLayers image_ID drawable_ID params w hopen]
    rfl
  · intro h
    rw [← hfile] at h
    have hp := save_layer_features_passthrough host image_ID _ h
    rw [heq, (save_layer_cleanup_world _ _).1, (save_layer_cleanup_world _ _).2.2.1,
      hp.1, hp.2, hwc]
    simp [hb.1]
  · intro h
    rw [heq, (save_layer_cleanup_world _ _).2.2.1, ← hwc] at h
    have hr := save_layer_features_rewrite host image_ID _ h
    rw [hfile] at hr
    obtain ⟨hm, icc, hicc, hsteps⟩ := hr
    refine ⟨hm, icc, hicc, ?_⟩
    rw [heq, (save_layer_cleanup_world _ _).2.2.2, hsteps, hrs]

/-- C9 (witness).  The statement at the sample host (no colour profile: the
file holds the four streamed bytes and the writer is not called) and at the
sample host with a colour profile (the writer is called, after the `ICCP`
chunk was set to the three profile bytes). -/
theorem save_layer_profile_step_witness :
    ((save_layer sample_host "out.webp" 1 1 1 sample_params sample_world).status.isSome = true
      ∧ (save_layer sample_host "out.webp" 1 1 1 sample_params sample_world).world.file
          = some [82, 73, 70, 70]
      ∧ writer_calls (save_layer sample_host "out.webp" 1 1 1 sample_params sample_world).world.log
          = [])
    ∧ (profile_host.mux_create_ok (layer_stream profile_host 1 sample_params) = true
      ∧ ∃ icc, profile_host.color_profile 1 = some icc
        ∧ (save_layer profile_host "out.webp" 1 1 1 sample_params sample_world).world.log.filter
            is_rewrite_step
          = sample_world.log.filter is_rewrite_step ++
            [Event.rewind, Event.WebPMuxSetChunk true "ICCP" icc,
             Event.WebPMuxAssemble true
               (profile_host.mux_assemble
                 (some { base := layer_stream profile_host 1 sample_params, anim := none,
                         iccp := some icc })
                 (some (layer_stream profile_host 1 sample_params))),
             Event.rewind,
             Event.webp_anim_file_writer
               (profile_host.mux_assemble
                 (some { base := layer_stream profile_host 1 sample_params, anim := none,
                         iccp := some icc })
                 (some (layer_stream profile_host 1 sample_params)))]) :=
  have h := save_layer_profile_step sample_host "out.webp" 1 1 1 sample_params sample_world
    (by decide) (by decide) (by decide)
  have h2 := save_layer_profile_step profile_host "out.webp" 1 1 1 sample_params sample_world
    (by decide) (by decide) (by decide)
  ⟨⟨h.1, (h.2.1 (Or.inl (by decide))).1, (h.2.1 (Or.inl (by decide))).2⟩,
    h2.2.2 (by decide)⟩

/-! ## The loop of `save_animation` -/

theorem Extends.refl (P : Event → Prop) (w : World) : Extends P w w :=
  ⟨rfl, rfl, rfl, [], by simp, by simp⟩

theorem Extends.emit (P : Event → Prop) (w1 w2 : World) (e : Event)
    (h : Extends P w1 w2) (he : P e) : Extends P w1 (w2.emit e) := by
  obtain ⟨h1, h2, h3, evs, h4, h5⟩ := h
  refine ⟨h1, h2, h3, evs ++ [e], by simp [h4], ?_⟩
  intro x hx
  rcases List.mem_append.1 hx with hx | hx
  · exact h5 x hx
  · rw [List.mem_singleton.1 hx]; exact he

theorem Extends.trans (P : Event → Prop) (w1 w2 w3 : World)
    (h12 : Extends P w1 w2) (h23 : Extends P w2 w3) : Extends P w1 w3 := by
  obtain ⟨a1, a2, a3, evs, a4, a5⟩ := h12
  obtain ⟨b1, b2, b3, evs', b4, b5⟩ := h23
  refine ⟨b1.trans a1, b2.trans a2, b3.trans a3, evs ++ evs', by simp [b4, a4], ?_⟩
  intro x hx
  rcases List.mem_append.1 hx with hx | hx
  · exact a5 x hx
  · exact b5 x hx

theorem mux_anim_params_append (a b : List Event) :
    mux_anim_params (a ++ b) = mux_anim_params a ++ mux_anim_params b := by
  simp [mux_anim_params]

theorem assemble_results_append (a b : List Event) :
    assemble_results (a ++ b) = assemble_results a ++ assemble_results b := by
  simp [assemble_results]

theorem anim_calls_append (a b : List Event) :
    anim_calls (a ++ b) = anim_calls a ++ anim_calls b := by
  simp [anim_calls]

theorem opens_append (m : String) (a b : List Event) :
    opens m (a ++ b) = opens m a + opens m b := by
  simp [opens]

/-- A loop event is seen by none of the readers of the mux step, the writer,
the assembly, or `g_fopen`. -/
theorem loop_event_quiet (e : Event) (he : is_loop_event e = true) :
    mux_anim_params [e] = [] ∧ writer_calls [e] = [] ∧ assemble_results [e] = []
      ∧ ∀ m, opens m [e] = 0 := by
  cases e <;> first
    | exact ⟨rfl, rfl, rfl, fun _ => rfl⟩
    | exact absurd he (by simp [is_loop_event])

/-- Loop events are seen by none of the readers of the mux step, the writer,
the assembly, or `g_fopen`. -/
theorem loop_events_quiet (evs : List Event) (h : ∀ e ∈ evs, is_loop_event e = true) :
    mux_anim_params evs = [] ∧ writer_calls evs = [] ∧ assemble_results evs = []
      ∧ ∀ m, opens m evs = 0 := by
  induction evs with
  | nil => exact ⟨rfl, rfl, rfl, fun _ => rfl⟩
  | cons e evs ih =>
    have he := loop_event_quiet e (h e (List.mem_cons_self _ _))
    have ih' := ih (fun x hx => h x (List.mem_cons_of_mem _ hx))
    have hcons : e :: evs = [e] ++ evs := rfl
    rw [hcons, mux_anim_params_append, writer_calls_append, assemble_results_append,
      he.1, he.2.1, he.2.2.1, ih'.1, ih'.2.1, ih'.2.2.1]
    refine ⟨rfl, rfl, rfl, fun m => ?_⟩
    rw [opens_append, he.2.2.2 m, ih'.2.2.2 m]

/-- One pass through the loop body only logs loop events. -/
theorem save_animation_body_extends (host : Host) (allLayers : List Int)
    (params : WebPSaveParams) (ts : Int) (loop : Nat)
    (enc : Option (List (WebPPicture × Int))) (w : World) :
    Extends (LoopEvent ts) w (save_animation_body host allLayers params ts loop enc w).world := by
  unfold save_animation_body
  simp only []
  split_ifs <;> dsimp only <;>
    repeat (first
      | with_reducible exact Extends.refl _ _
      | ((with_reducible refine Extends.emit _ _ _ _ ?_ ?_); swap;
          (refine ⟨rfl, ?_⟩; intro _ _ _ _ h; cases h <;> rfl)))

/-- The loop only logs loop events. -/
theorem save_animation_loop_extends (host : Host) (allLayers : List Int)
    (params : WebPSaveParams) (ts : Int) (remaining : Nat) :
    ∀ (loop : Nat) (enc : Option (List (WebPPicture × Int))) (w : World),
      Extends (LoopEvent ts) w
        (save_animation_loop host allLayers params ts remaining loop enc w).2 := by
  induction remaining with
  | zero => intro loop enc w; exact Extends.refl _ _
  | succ n ih =>
    intro loop enc w
    have hb := save_animation_body_extends host allLayers params ts loop enc w
    unfold save_animation_loop
    simp only []
    split_ifs
    · exact hb
    · exact Extends.trans _ _ _ _ hb (ih _ _ _)

/-! ## The tail of `save_animation` -/

theorem webp_anim_file_writer_log (d : Option Bytes) (w : World) :
    (webp_anim_file_writer d w).2.log
      = w.log ++ Event.webp_anim_file_writer d :: (d.map Event.fwrite).toList := by
  cases d <;> simp [webp_anim_file_writer]

set_option maxHeartbeats 1000000 in
/-- The tail hands the animation parameters to the mux step once, with loop
count one for `params.loop == FALSE` and zero otherwise. -/
theorem save_animation_finish_params (host : Host) (image_ID : Int)
    (params : WebPSaveParams) (ts : Int) (enc : Option (List (WebPPicture × Int)))
    (w : World) :
    mux_anim_params (save_animation_finish host image_ID params ts enc w).log
      = mux_anim_params w.log
        ++ [{ bgcolor := 0, loop_count := if params.loop = 0 then 1 else 0 }] := by
  unfold save_animation_finish
  simp only [emit_log, webp_anim_file_writer_log]
  split_ifs <;> split <;>
    simp [mux_anim_params, List.filterMap_append, List.filterMap_cons]

set_option maxHeartbeats 1000000 in
/-- The tail calls `WebPAnimEncoderAssemble` once. -/
theorem save_animation_finish_assemble (host : Host) (image_ID : Int)
    (params : WebPSaveParams) (ts : Int) (enc : Option (List (WebPPicture × Int)))
    (w : World) :
    assemble_results (save_animation_finish host image_ID params ts enc w).log
      = assemble_results w.log
        ++ [match enc with
            | some frames => (host.anim_assemble frames).1
            | none => false] := by
  unfold save_animation_finish
  simp only [emit_log, webp_anim_file_writer_log]
  cases enc <;> dsimp only <;> split_ifs <;> split <;>
    simp [assemble_results, List.filterMap_append, List.filterMap_cons]

set_option maxHeartbeats 1000000 in
/-- The tail sends the terminating `NULL` frame and then assembles. -/
theorem save_animation_finish_calls (host : Host) (image_ID : Int)
    (params : WebPSaveParams) (ts : Int) (enc : Option (List (WebPPicture × Int)))
    (w : World) :
    anim_calls (save_animation_finish host image_ID params ts enc w).log
      = anim_calls w.log ++ [AnimCall.add none, AnimCall.assemble] := by
  unfold save_animation_finish
  simp only [emit_log, webp_anim_file_writer_log]
  split_ifs <;> split <;>
    simp [anim_calls, List.filterMap_append, List.filterMap_cons]

set_option maxHeartbeats 1000000 in
/-- The tail opens no file. -/
theorem save_animation_finish_opens (host : Host) (image_ID : Int)
    (params : WebPSaveParams) (ts : Int) (enc : Option (List (WebPPicture × Int)))
    (w : World) (m : String) :
    opens m (save_animation_finish host image_ID params ts enc w).log = opens m w.log := by
  unfold save_animation_finish
  simp only [emit_log, webp_anim_file_writer_log]
  split_ifs <;> split <;>
    simp [opens, is_fopen, List.countP_cons]

theorem writer_calls_nil : writer_calls [] = [] := rfl

theorem writer_calls_cons (e : Event) (l : List Event) :
    writer_calls (e :: l)
      = (match e with
          | Event.webp_anim_file_writer d => [d]
          | _ => []) ++ writer_calls l := by
  cases e <;> rfl

theorem writer_calls_fwrite (d : Option Bytes) (l : List Event) :
    writer_calls ((d.map Event.fwrite).toList ++ l) = writer_calls l := by
  cases d <;> rfl

theorem writer_calls_fwrite_only (d : Option Bytes) :
    writer_calls (d.map Event.fwrite).toList = [] := by
  cases d <;> rfl

set_option maxHeartbeats 2000000 in
/-- The tail calls `webp_anim_file_writer` once, with what `WebPMuxAssemble`
left in `webp_data`. -/
theorem save_animation_finish_writer (host : Host) (image_ID : Int)
    (params : WebPSaveParams) (ts : Int) (enc : Option (List (WebPPicture × Int)))
    (w : World) :
    writer_calls (save_animation_finish host image_ID params ts enc w).log
      = writer_calls w.log ++ [anim_final_data host image_ID params enc] := by
  unfold save_animation_finish anim_final_data
  simp only [emit_log, webp_anim_file_writer_log]
  cases enc with
  | none =>
    cases h29 : host.GIMP_2_9 <;> cases hp : host.color_profile image_ID <;>
      simp [writer_calls_append, writer_calls_cons, writer_calls_nil, writer_calls_fwrite,
        writer_calls_fwrite_only, h29, hp]
  | some frames =>
    rcases ha : host.anim_assemble frames with ⟨ok, data⟩
    cases ok <;> cases data <;> cases h29 : host.GIMP_2_9 <;>
      cases hp : host.color_profile image_ID <;>
      simp [writer_calls_append, writer_calls_cons, writer_calls_nil, writer_calls_fwrite,
        writer_calls_fwrite_only, h29, hp, ha]

theorem frame_timestamps_append (a b : List Event) :
    frame_timestamps (a ++ b) = frame_timestamps a ++ frame_timestamps b := by
  simp [frame_timestamps]

set_option maxHeartbeats 1000000 in
/-- The tail adds no frame other than the terminating `NULL` frame. -/
theorem save_animation_finish_timestamps (host : Host) (image_ID : Int)
    (params : WebPSaveParams) (ts : Int) (enc : Option (List (WebPPicture × Int)))
    (w : World) :
    frame_timestamps (save_animation_finish host image_ID params ts enc w).log
      = frame_timestamps w.log := by
  unfold save_animation_finish
  simp only [emit_log, webp_anim_file_writer_log]
  split_ifs <;> split <;>
    simp [frame_timestamps, List.filterMap_append, List.filterMap_cons]

/-! ## `save_animation` as a whole -/

theorem anim_calls_nil : anim_calls [] = [] := rfl

theorem anim_calls_cons (e : Event) (l : List Event) :
    anim_calls (e :: l)
      = (match e with
          | Event.WebPAnimEncoderAdd _ frame _ _ => [AnimCall.add frame]
          | Event.WebPAnimEncoderAssemble _ _ _ => [AnimCall.assemble]
          | _ => []) ++ anim_calls l := by
  cases e <;> rfl

/-- A pass through the loop body in which the encoder exists and the buffer
is allocated does not `break` and submits the frame of layer
`allLayers[loop]` once, whether or not the encoder accepts it. -/
theorem save_animation_body_submits (host : Host) (allLayers : List Int)
    (params : WebPSaveParams) (ts : Int) (loop : Nat)
    (enc : Option (List (WebPPicture × Int))) (w : World)
    (hnew : loop = 0 → host.anim_new_ok (host.gimp_drawable_width (allLayers.getD loop 0))
      (host.gimp_drawable_height (allLayers.getD loop 0)) = true)
    (halloc : host.anim_alloc_ok loop = true) :
    (save_animation_body host allLayers params ts loop enc w).broke = false
      ∧ anim_calls (save_animation_body host allLayers params ts loop enc w).world.log
          = anim_calls w.log
            ++ [AnimCall.add (some (anim_picture host (allLayers.getD loop 0)))] := by
  have hn : ¬ (loop = 0 ∧ host.anim_new_ok (host.gimp_drawable_width (allLayers.getD loop 0))
      (host.gimp_drawable_height (allLayers.getD loop 0)) = false) := by
    rintro ⟨h0, hf⟩
    rw [hnew h0] at hf
    exact Bool.noConfusion hf
  constructor
  · unfold save_animation_body
    simp only [hn, halloc, if_false, Bool.true_eq_false]
  · unfold save_animation_body
    simp only [hn, halloc, if_false, Bool.true_eq_false]
    split_ifs <;>
      simp [anim_calls_append, anim_calls_cons, anim_calls_nil]

/-- With the encoder created in the first pass and every buffer allocated,
the loop submits the layers `allLayers[loop]`, `allLayers[loop + 1]`, ... in
this order, one frame each. -/
theorem save_animation_loop_submits (host : Host) (allLayers : List Int)
    (params : WebPSaveParams) (ts : Int) (remaining : Nat) :
    ∀ (loop : Nat) (enc : Option (List (WebPPicture × Int))) (w : World),
      (loop = 0 → 0 < remaining →
        host.anim_new_ok (host.gimp_drawable_width (allLayers.getD 0 0))
          (host.gimp_drawable_height (allLayers.getD 0 0)) = true) →
      (∀ i, loop ≤ i → i < loop + remaining → host.anim_alloc_ok i = true) →
      anim_calls (save_animation_loop host allLayers params ts remaining loop enc w).2.log
        = anim_calls w.log
          ++ (List.range remaining).map
              (fun k => AnimCall.add (some (anim_picture host (allLayers.getD (loop + k) 0)))) := by
  induction remaining with
  | zero => intro loop enc w _ _; simp [save_animation_loop]
  | succ n ih =>
    intro loop enc w hnew halloc
    have hb := save_animation_body_submits host allLayers params ts loop enc w
      (fun h0 => by subst h0; exact hnew rfl (Nat.succ_pos n))
      (halloc loop (Nat.le_refl _) (by omega))
    have ih' := ih (loop + 1) (save_animation_body host allLayers params ts loop enc w).enc
      (save_animation_body host allLayers params ts loop enc w).world
      (fun h0 => absurd h0 (Nat.succ_ne_zero loop))
      (fun i h1 h2 => halloc i (by omega) (by omega))
    unfold save_animation_loop
    simp only [hb.1, Bool.false_eq_true, if_false]
    rw [ih', hb.2, List.range_succ_eq_map, List.map_cons, List.map_map, List.append_assoc]
    simp only [List.singleton_append, Nat.add_zero]
    congr 2
    apply List.map_congr_left
    intro k _
    simp only [Function.comp_apply]
    rw [show loop + 1 + k = loop + (k + 1) by omega]

/-- Reading `allLayers[0]`, ..., `allLayers[n - 1]` gives the array. -/
theorem range_getD (l : List Int) :
    (List.range l.length).map (fun k => l.getD k 0) = l := by
  apply List.ext_getElem
  · simp
  · intro i h1 h2
    simp [List.getElem?_eq_getElem h2]

theorem anim_loop_world_reads (host : Host) (filename : String) (nLayers : Int) (w : World) :
    mux_anim_params (anim_loop_world host filename nLayers w).log = mux_anim_params w.log
      ∧ writer_calls (anim_loop_world host filename nLayers w).log = writer_calls w.log
      ∧ assemble_results (anim_loop_world host filename nLayers w).log = assemble_results w.log
      ∧ anim_calls (anim_loop_world host filename nLayers w).log = anim_calls w.log
      ∧ opens "wb" (anim_loop_world host filename nLayers w).log = opens "wb" w.log + 1
      ∧ opens "wb+" (anim_loop_world host filename nLayers w).log = opens "wb+" w.log := by
  unfold anim_loop_world
  simp only [emit_log, fopen_truncate_log, mux_anim_params_append, writer_calls_append,
    assemble_results_append, anim_calls_append, opens_append]
  refine ⟨?_, ?_, ?_, ?_, ?_, ?_⟩ <;>
    simp [mux_anim_params, writer_calls, assemble_results, anim_calls, opens, is_fopen]

/-- When the layer count is at least one, the file opens and the encoder
options initialise, `save_animation` runs the loop and the tail, closes the
file, and returns `TRUE`. -/
theorem save_animation_reached (host : Host) (filename : String) (nLayers : Int)
    (allLayers : List Int) (image_ID drawable_ID : Int) (params : WebPSaveParams) (w : World)
    (hn : 1 ≤ nLayers) (hopen : host.fopen_ok = true)
    (hinit : host.anim_options_init_ok = true) :
    save_animation host filename nLayers allLayers image_ID drawable_ID params w
      = (true,
         (save_animation_finish host image_ID params 0
            (save_animation_loop host allLayers params 0 nLayers.toNat 0 none
              (anim_loop_world host filename nLayers w)).1
            (save_animation_loop host allLayers params 0 nLayers.toNat 0 none
              (anim_loop_world host filename nLayers w)).2).emit Event.fclose) := by
  have hlt : ¬ nLayers < 1 := by omega
  unfold save_animation anim_loop_world
  simp only [hlt, hopen, hinit, if_false, Bool.true_eq_false]

/-- When the layer count is below one, the file does not open, or the encoder
options do not initialise, `save_animation` returns `FALSE` without reaching
the loop: no frame is submitted, nothing is assembled, no mux step is made
and nothing is written. -/
theorem save_animation_unreached (host : Host) (filename : String) (nLayers : Int)
    (allLayers : List Int) (image_ID drawable_ID : Int) (params : WebPSaveParams) (w : World)
    (h : ¬ (1 ≤ nLayers ∧ host.fopen_ok = true ∧ host.anim_options_init_ok = true)) :
    (save_animation host filename nLayers allLayers image_ID drawable_ID params w).1 = false
      ∧ mux_anim_params
          (save_animation host filename nLayers allLayers image_ID drawable_ID params w).2.log
          = mux_anim_params w.log
      ∧ writer_calls
          (save_animation host filename nLayers allLayers image_ID drawable_ID params w).2.log
          = writer_calls w.log
      ∧ assemble_results
          (save_animation host filename nLayers allLayers image_ID drawable_ID params w).2.log
          = assemble_results w.log
      ∧ anim_calls
          (save_animation host filename nLayers allLayers image_ID drawable_ID params w).2.log
          = anim_calls w.log := by
  unfold save_animation
  by_cases hn : nLayers < 1
  · simp [hn, mux_anim_params, writer_calls, assemble_results, anim_calls]
  · cases hopen : host.fopen_ok with
    | false => simp [hn, mux_anim_params, writer_calls, assemble_results, anim_calls]
    | true =>
      cases hinit : host.anim_options_init_ok with
      | false => simp [hn, mux_anim_params, writer_calls, assemble_results, anim_calls]
      | true => exact absurd ⟨by omega, hopen, hinit⟩ h

/-- What the loop of `save_animation` adds to the readers of the log. -/
theorem save_animation_loop_reads (host : Host) (allLayers : List Int)
    (params : WebPSaveParams) (ts : Int) (remaining loop : Nat)
    (enc : Option (List (WebPPicture × Int))) (w : World) :
    mux_anim_params (save_animation_loop host allLayers params ts remaining loop enc w).2.log
        = mux_anim_params w.log
      ∧ writer_calls (save_animation_loop host allLayers params ts remaining loop enc w).2.log
        = writer_calls w.log
      ∧ assemble_results (save_animation_loop host allLayers params ts remaining loop enc w).2.log
        = assemble_results w.log
      ∧ ∀ m, opens m (save_animation_loop host allLayers params ts remaining loop enc w).2.log
        = opens m w.log := by
  obtain ⟨_, _, _, evs, hlog, hev⟩ :=
    save_animation_loop_extends host allLayers params ts remaining loop enc w
  have hq := loop_events_quiet evs (fun e he => (hev e he).1)
  rw [hlog, mux_anim_params_append, writer_calls_append, assemble_results_append,
    hq.1, hq.2.1, hq.2.2.1]
  refine ⟨by simp, by simp, by simp, fun m => ?_⟩
  rw [opens_append, hq.2.2.2 m, Nat.add_zero]

/-- What a call of `save_animation` that reaches the loop adds to the readers
of the log: one set of animation parameters, one call of the writer, one
assembly. -/
theorem save_animation_reached_reads (host : Host) (filename : String) (nLayers : Int)
    (allLayers : List Int) (image_ID drawable_ID : Int) (params : WebPSaveParams) (w : World)
    (hn : 1 ≤ nLayers) (hopen : host.fopen_ok = true)
    (hinit : host.anim_options_init_ok = true) :
    mux_anim_params
        (save_animation host filename nLayers allLayers image_ID drawable_ID params w).2.log
        = mux_anim_params w.log
          ++ [{ bgcolor := 0, loop_count := if params.loop = 0 then 1 else 0 }]
      ∧ (∃ d, writer_calls
          (save_animation host filename nLayers allLayers image_ID drawable_ID params w).2.log
          = writer_calls w.log ++ [d])
      ∧ (∃ ok, assemble_results
          (save_animation host filename nLayers allLayers image_ID drawable_ID params w).2.log
          = assemble_results w.log ++ [ok]) := by
  have hw := anim_loop_world_reads host filename nLayers w
  have hl := save_animation_loop_reads host allLayers params 0 nLayers.toNat 0 none
    (anim_loop_world host filename nLayers w)
  rw [save_animation_reached host filename nLayers allLayers image_ID drawable_ID params w
    hn hopen hinit]
  simp only [emit_log, mux_anim_params_append, writer_calls_append, assemble_results_append,
    save_animation_finish_params, save_animation_finish_writer,
    save_animation_finish_assemble, hl.1, hl.2.1, hl.2.2.1, hw.1, hw.2.1, hw.2.2.1]
  refine ⟨?_, ⟨anim_final_data host image_ID params
      (save_animation_loop host allLayers params 0 nLayers.toNat 0 none
        (anim_loop_world host filename nLayers w)).1, ?_⟩,
    ⟨(match (save_animation_loop host allLayers params 0 nLayers.toNat 0 none
        (anim_loop_world host filename nLayers w)).1 with
      | some frames => (host.anim_assemble frames).1
      | none => false), ?_⟩⟩
  · simp [mux_anim_params]
  · simp only [writer_calls_cons, writer_calls_nil, List.append_nil]
  · simp only [assemble_results, List.filterMap_cons, List.filterMap_nil, List.append_nil]

/-- A pass through the loop body in which the encoder exists and the buffer
is allocated leaves in `enc` the frames it held, followed by the frame of
this pass if the encoder accepted it. -/
theorem save_animation_body_accepts (host : Host) (allLayers : List Int)
    (params : WebPSaveParams) (ts : Int) (loop : Nat)
    (enc : Option (List (WebPPicture × Int))) (w : World) (fr : List (WebPPicture × Int))
    (hbase : (if loop = 0 then some [] else enc) = some fr)
    (hnew : loop = 0 → host.anim_new_ok (host.gimp_drawable_width (allLayers.getD loop 0))
      (host.gimp_drawable_height (allLayers.getD loop 0)) = true)
    (halloc : host.anim_alloc_ok loop = true) :
    (save_animation_body host allLayers params ts loop enc w).enc
      = some (fr ++ (if host.anim_add_ok loop then
          [(anim_picture host (allLayers.getD loop 0), ts)] else [])) := by
  have hn : ¬ (loop = 0 ∧ host.anim_new_ok (host.gimp_drawable_width (allLayers.getD loop 0))
      (host.gimp_drawable_height (allLayers.getD loop 0)) = false) := by
    rintro ⟨h0, hf⟩
    rw [hnew h0] at hf
    exact Bool.noConfusion hf
  unfold save_animation_body
  simp only [hn, halloc, if_false, Bool.true_eq_false, hbase]
  cases host.anim_add_ok loop <;> simp

/-- With the encoder created in the first pass and every buffer allocated,
the loop leaves in `enc` the frames held before, followed by the frames of
the layers whose `WebPAnimEncoderAdd` succeeded, in order. -/
theorem save_animation_loop_accepts (host : Host) (allLayers : List Int)
    (params : WebPSaveParams) (ts : Int) (n : Nat) :
    ∀ (loop : Nat) (enc : Option (List (WebPPicture × Int))) (w : World)
      (fr : List (WebPPicture × Int)),
      (if loop = 0 then some [] else enc) = some fr →
      (loop = 0 → host.anim_new_ok (host.gimp_drawable_width (allLayers.getD 0 0))
          (host.gimp_drawable_height (allLayers.getD 0 0)) = true) →
      (∀ i, loop ≤ i → i < loop + (n + 1) → host.anim_alloc_ok i = true) →
      ∃ frames,
        (save_animation_loop host allLayers params ts (n + 1) loop enc w).1 = some (fr ++ frames)
        ∧ frames.map Prod.fst
          = (List.range (n + 1)).filterMap (fun k =>
              if host.anim_add_ok (loop + k) then
                some (anim_picture host (allLayers.getD (loop + k) 0)) else none) := by
  induction n with
  | zero =>
    intro loop enc w fr hbase hnew halloc
    have hb := save_animation_body_submits host allLayers params ts loop enc w
      (fun h0 => by subst h0; exact hnew rfl) (halloc loop (Nat.le_refl _) (by omega))
    have he := save_animation_body_accepts host allLayers params ts loop enc w fr hbase
      (fun h0 => by subst h0; exact hnew rfl) (halloc loop (Nat.le_refl _) (by omega))
    refine ⟨(if host.anim_add_ok loop then
        [(anim_picture host (allLayers.getD loop 0), ts)] else []), ?_, ?_⟩
    · unfold save_animation_loop
      simp only [hb.1, Bool.false_eq_true, if_false]
      unfold save_animation_loop
      exact he
    · cases hadd : host.anim_add_ok loop <;> simp [List.range_succ, hadd]
  | succ n ih =>
    intro loop enc w fr hbase hnew halloc
    have hb := save_animation_body_submits host allLayers params ts loop enc w
      (fun h0 => by subst h0; exact hnew rfl) (halloc loop (Nat.le_refl _) (by omega))
    have he := save_animation_body_accepts host allLayers params ts loop enc w fr hbase
      (fun h0 => by subst h0; exact hnew rfl) (halloc loop (Nat.le_refl _) (by omega))
    obtain ⟨frames, h1, h2⟩ := ih (loop + 1)
      (save_animation_body host allLayers params ts loop enc w).enc
      (save_animation_body host allLayers params ts loop enc w).world
      (fr ++ (if host.anim_add_ok loop then
          [(anim_picture host (allLayers.getD loop 0), ts)] else []))
      (by simp only [Nat.succ_ne_zero, if_false]; exact he)
      (fun h0 => absurd h0 (Nat.succ_ne_zero loop))
      (fun i h3 h4 => halloc i (by omega) (by omega))
    refine ⟨(if host.anim_add_ok loop then
        [(anim_picture host (allLayers.getD loop 0), ts)] else []) ++ frames, ?_, ?_⟩
    · rw [← List.append_assoc, ← h1]
      conv_lhs => unfold save_animation_loop
      simp only [hb.1, Bool.false_eq_true, if_false]
    · rw [List.map_append, h2, List.range_succ_eq_map (n + 1), List.filterMap_cons,
        List.filterMap_map]
      have hshift : ∀ k, loop + 1 + k = loop + (k + 1) := fun k => by omega
      cases hadd : host.anim_add_ok loop <;>
        simp [Function.comp_def, hshift, hadd]

set_option maxHeartbeats 1000000 in
/-- The tail of `save_animation` leaves the error as it is. -/
theorem save_animation_finish_error (host : Host) (image_ID : Int)
    (params : WebPSaveParams) (ts : Int) (enc : Option (List (WebPPicture × Int)))
    (w : World) :
    (save_animation_finish host image_ID params ts enc w).error = w.error := by
  unfold save_animation_finish
  simp only [emit_error, webp_anim_file_writer_error]
  split_ifs <;> split <;> simp [webp_anim_file_writer_error]

set_option maxHeartbeats 1000000 in
/-- When the assembly fails, the tail prints the text of
`WebPAnimEncoderGetError`. -/
theorem save_animation_finish_prints (host : Host) (image_ID : Int)
    (params : WebPSaveParams) (ts : Int) (frames : List (WebPPicture × Int)) (w : World)
    (hfail : (host.anim_assemble frames).1 = false) :
    Event.g_print ("[WebPAnimEncoderAssemble]ERROR: " ++ host.anim_error_string ++ "\n")
      ∈ (save_animation_finish host image_ID params ts (some frames) w).log := by
  unfold save_animation_finish
  simp only [emit_log, webp_anim_file_writer_log, hfail, if_true]
  split_ifs <;> split <;> simp

/-! ## Claims about `save_animation` -/

/-- C6.  A call of `save_animation` hands animation parameters to the mux
step exactly when the layer count is at least one, the file opens and the
encoder options initialise, and then exactly once; the loop count handed over
is 1 when `params->loop` is `FALSE` and 0 otherwise. -/
theorem save_animation_loop_count (host : Host) (filename : String) (nLayers : Int)
    (allLayers : List Int) (image_ID drawable_ID : Int) (params : WebPSaveParams)
    (w : World) :
    (mux_anim_params
        (save_animation host filename nLayers allLayers image_ID drawable_ID params w).2.log).map
        WebPMuxAnimParams.loop_count
      = (mux_anim_params w.log).map WebPMuxAnimParams.loop_count
        ++ (if 1 ≤ nLayers ∧ host.fopen_ok = true ∧ host.anim_options_init_ok = true then
              [if params.loop = 0 then 1 else 0]
            else []) := by
  by_cases h : 1 ≤ nLayers ∧ host.fopen_ok = true ∧ host.anim_options_init_ok = true
  · rw [(save_animation_reached_reads host filename nLayers allLayers image_ID drawable_ID
      params w h.1 h.2.1 h.2.2).1]
    simp [h]
  · rw [(save_animation_unreached host filename nLayers allLayers image_ID drawable_ID
      params w h).2.1]
    simp [h]

/-- C7 (counterexample).  With two layers and an encoder whose assembly
fails, `save_animation` still returns `TRUE`. -/
theorem save_animation_failed_assembly_returns_true :
    assemble_results
        (save_animation no_assembly_host "out.webp" 2 [1, 2] 1 1 sample_params sample_world).2.log
        = [false]
      ∧ (save_animation no_assembly_host "out.webp" 2 [1, 2] 1 1 sample_params sample_world).1
        = true := by
  decide

/-- C7 (amended).  Whenever `WebPAnimEncoderAssemble` fails in a call of
`save_animation` in which the encoder was created and every pixel buffer was
allocated, the failure is only printed: the text of `WebPAnimEncoderGetError`
goes to `g_print`, the error location is left as it was, the encoder that
failed to assemble held the frames of the layers whose add succeeded,
`webp_anim_file_writer` is still called, once, with what `WebPMuxAssemble`
left in `webp_data`, and the status returned is `TRUE`. -/
theorem save_animation_assembly_failure (host : Host) (filename : String) (nLayers : Int)
    (allLayers : List Int) (image_ID drawable_ID : Int) (params : WebPSaveParams) (w : World)
    (hnew : host.anim_new_ok (host.gimp_drawable_width (allLayers.getD 0 0))
      (host.gimp_drawable_height (allLayers.getD 0 0)) = true)
    (halloc : ∀ i, i < nLayers.toNat → host.anim_alloc_ok i = true)
    (hfail : assemble_results
        (save_animation host filename nLayers allLayers image_ID drawable_ID params w).2.log
      = assemble_results w.log ++ [false]) :
    (save_animation host filename nLayers allLayers image_ID drawable_ID params w).1 = true
      ∧ (save_animation host filename nLayers allLayers image_ID drawable_ID params w).2.error
        = w.error
      ∧ Event.g_print ("[WebPAnimEncoderAssemble]ERROR: " ++ host.anim_error_string ++ "\n")
        ∈ (save_animation host filename nLayers allLayers image_ID drawable_ID params w).2.log
      ∧ ∃ frames, frames.map Prod.fst = accepted_pictures host allLayers nLayers.toNat
        ∧ (host.anim_assemble frames).1 = false
        ∧ writer_calls
            (save_animation host filename nLayers allLayers image_ID drawable_ID params w).2.log
          = writer_calls w.log ++ [anim_final_data host image_ID params (some frames)] := by
  by_cases h : 1 ≤ nLayers ∧ host.fopen_ok = true ∧ host.anim_options_init_ok = true
  · obtain ⟨m, hm⟩ : ∃ m, nLayers.toNat = m + 1 := ⟨nLayers.toNat - 1, by omega⟩
    obtain ⟨frames, henc, hmap⟩ := save_animation_loop_accepts host allLayers params 0 m 0 none
      (anim_loop_world host filename nLayers w) [] rfl (fun _ => hnew)
      (fun i _ h2 => halloc i (by omega))
    rw [List.nil_append] at henc
    have hpics : frames.map Prod.fst = accepted_pictures host allLayers nLayers.toNat := by
      rw [hmap, hm]
      unfold accepted_pictures
      simp
    have hw := anim_loop_world_reads host filename nLayers w
    have hl := save_animation_loop_reads host allLayers params 0 (m + 1) 0 none
      (anim_loop_world host filename nLayers w)
    have hext := save_animation_loop_extends host allLayers params 0 (m + 1) 0 none
      (anim_loop_world host filename nLayers w)
    have hreach := save_animation_reached host filename nLayers allLayers image_ID drawable_ID
      params w h.1 h.2.1 h.2.2
    rw [hm] at hreach
    rw [hreach] at hfail ⊢
    simp only [emit_log, assemble_results_append, save_animation_finish_assemble, henc,
      hl.2.2.1, hw.2.2.1] at hfail
    have hok : (host.anim_assemble frames).1 = false := by
      simpa [assemble_results] using hfail
    refine ⟨rfl, ?_, ?_, frames, hpics, hok, ?_⟩
    · have herr : (anim_loop_world host filename nLayers w).error = w.error := by
        unfold anim_loop_world
        simp
      rw [emit_error, save_animation_finish_error, hext.1, herr]
    · rw [emit_log, henc]
      exact List.mem_append_left _
        (save_animation_finish_prints host image_ID params 0 frames _ hok)
    · rw [emit_log, writer_calls_append, save_animation_finish_writer, henc, hl.2.1, hw.2.1]
      simp [writer_calls_cons, writer_calls_nil]
  · have hu := (save_animation_unreached host filename nLayers allLayers image_ID drawable_ID
      params w h).2.2.2.1
    rw [hu] at hfail
    have hlen := congrArg List.length hfail
    simp at hlen

/-- C7 (witness).  The amended statement at two layers and an encoder whose
assembly fails. -/
theorem save_animation_assembly_failure_witness :
    (save_animation no_assembly_host "out.webp" 2 [1, 2] 1 1 sample_params sample_world).1 = true
      ∧ (save_animation no_assembly_host "out.webp" 2 [1, 2] 1 1 sample_params
          sample_world).2.error = sample_world.error
      ∧ Event.g_print
          ("[WebPAnimEncoderAssemble]ERROR: " ++ no_assembly_host.anim_error_string ++ "\n")
        ∈ (save_animation no_assembly_host "out.webp" 2 [1, 2] 1 1 sample_params
            sample_world).2.log
      ∧ ∃ frames,
          frames.map Prod.fst = accepted_pictures no_assembly_host [1, 2] (2 : Int).toNat
        ∧ (no_assembly_host.anim_assemble frames).1 = false
        ∧ writer_calls
            (save_animation no_assembly_host "out.webp" 2 [1, 2] 1 1 sample_params
              sample_world).2.log
          = writer_calls sample_world.log
            ++ [anim_final_data no_assembly_host 1 sample_params (some frames)] :=
  save_animation_assembly_failure no_assembly_host "out.webp" 2 [1, 2] 1 1 sample_params
    sample_world (by decide) (fun _ _ => rfl) (by decide)

/-- C8.  With at least one layer (the array holding `nLayers` of them), the
file open, the encoder options initialised, the encoder created and every
pixel buffer allocated, `save_animation` returns `TRUE` and the calls it
makes to the animation encoder are: one `WebPAnimEncoderAdd` per layer, in
the order of `allLayers`, then one `WebPAnimEncoderAdd` of the `NULL` frame,
then `WebPAnimEncoderAssemble`.  Nothing is assumed about which of the adds
the encoder accepts. -/
theorem save_animation_submits_every_layer (host : Host) (filename : String)
    (nLayers : Int) (allLayers : List Int) (image_ID drawable_ID : Int)
    (params : WebPSaveParams) (w : World)
    (hlen : nLayers = allLayers.length) (hn : 1 ≤ nLayers)
    (hopen : host.fopen_ok = true) (hinit : host.anim_options_init_ok = true)
    (hnew : host.anim_new_ok (host.gimp_drawable_width (allLayers.getD 0 0))
      (host.gimp_drawable_height (allLayers.getD 0 0)) = true)
    (halloc : ∀ i, i < allLayers.length → host.anim_alloc_ok i = true) :
    (save_animation host filename nLayers allLayers image_ID drawable_ID params w).1 = true
      ∧ anim_calls
          (save_animation host filename nLayers allLayers image_ID drawable_ID params w).2.log
        = anim_calls w.log
          ++ allLayers.map (fun layer => AnimCall.add (some (anim_picture host layer)))
          ++ [AnimCall.add none, AnimCall.assemble] := by
  have hnat : nLayers.toNat = allLayers.length := by rw [hlen]; simp
  have hloop := save_animation_loop_submits host allLayers params 0 allLayers.length 0 none
    (anim_loop_world host filename nLayers w) (fun _ _ => hnew)
    (fun i _ h2 => halloc i (by omega))
  have hmap : (List.range allLayers.length).map
      (fun k => AnimCall.add (some (anim_picture host (allLayers.getD (0 + k) 0))))
      = allLayers.map (fun layer => AnimCall.add (some (anim_picture host layer))) := by
    have h := congrArg (List.map (fun layer => AnimCall.add (some (anim_picture host layer))))
      (range_getD allLayers)
    rw [List.map_map] at h
    rw [← h]
    apply List.map_congr_left
    intro k _
    simp
  rw [save_animation_reached host filename nLayers allLayers image_ID drawable_ID params w
    hn hopen hinit, hnat]
  refine ⟨rfl, ?_⟩
  rw [emit_log, anim_calls_append, save_animation_finish_calls, hloop, hmap,
    (anim_loop_world_reads host filename nLayers w).2.2.2.1]
  simp [anim_calls_cons, anim_calls_nil]

/-- C8 (witness).  The statement at the sample host with two layers and an
encoder that refuses the first frame. -/
theorem save_animation_submits_every_layer_witness :
    (save_animation { sample_host with anim_add_ok := fun i => decide (i ≠ 0) } "out.webp" 2
        [1, 2] 1 1 sample_params sample_world).1 = true
      ∧ anim_calls
          (save_animation { sample_host with anim_add_ok := fun i => decide (i ≠ 0) } "out.webp"
            2 [1, 2] 1 1 sample_params sample_world).2.log
        = anim_calls sample_world.log
          ++ [1, 2].map (fun layer => AnimCall.add
              (some (anim_picture { sample_host with anim_add_ok := fun i => decide (i ≠ 0) }
                layer)))
          ++ [AnimCall.add none, AnimCall.assemble] :=
  save_animation_submits_every_layer { sample_host with anim_add_ok := fun i => decide (i ≠ 0) }
    "out.webp" 2 [1, 2] 1 1 sample_params sample_world (by decide) (by decide) (by decide)
    (by decide) (by decide) (fun _ _ => rfl)

/-- Every frame `save_animation` adds carries the timestamp 0: the counter
`frame_timestamp` is initialised to 0 and never advanced. -/
theorem save_animation_timestamps_zero (host : Host) (filename : String) (nLayers : Int)
    (allLayers : List Int) (image_ID drawable_ID : Int) (params : WebPSaveParams) (w : World) :
    ∃ n, frame_timestamps
        (save_animation host filename nLayers allLayers image_ID drawable_ID params w).2.log
      = frame_timestamps w.log ++ List.replicate n 0 := by
  by_cases h : 1 ≤ nLayers ∧ host.fopen_ok = true ∧ host.anim_options_init_ok = true
  · obtain ⟨_, _, _, evs, hlog, hev⟩ :=
      save_animation_loop_extends host allLayers params 0 nLayers.toNat 0 none
        (anim_loop_world host filename nLayers w)
    have hevs : ∀ l : List Event, (∀ e ∈ l, LoopEvent 0 e) →
        frame_timestamps l = List.replicate (frame_timestamps l).length 0 := by
      intro l
      induction l with
      | nil => intro _; rfl
      | cons e l ih =>
        intro hl
        have ih' := ih (fun x hx => hl x (List.mem_cons_of_mem _ hx))
        have he := (hl e (List.mem_cons_self _ _)).2
        have hcons : e :: l = [e] ++ l := rfl
        rw [hcons, frame_timestamps_append, List.length_append, List.replicate_add, ← ih']
        congr 1
        cases e with
        | WebPAnimEncoderAdd p f t c =>
          cases f with
          | none => rfl
          | some pic =>
            have ht := he p (some pic) t c rfl
            subst ht
            rfl
        | _ => rfl
    refine ⟨(frame_timestamps evs).length, ?_⟩
    rw [save_animation_reached host filename nLayers allLayers image_ID drawable_ID params w
      h.1 h.2.1 h.2.2, emit_log, frame_timestamps_append, save_animation_finish_timestamps,
      hlog, frame_timestamps_append, ← hevs evs hev]
    have hw : frame_timestamps (anim_loop_world host filename nLayers w).log
        = frame_timestamps w.log := by
      unfold anim_loop_world
      simp [frame_timestamps]
    rw [hw]
    simp [frame_timestamps]
  · refine ⟨0, ?_⟩
    unfold save_animation
    by_cases hn : nLayers < 1
    · simp [hn, frame_timestamps]
    · cases hopen : host.fopen_ok with
      | false => simp [hn, frame_timestamps]
      | true =>
        cases hinit : host.anim_options_init_ok with
        | false => simp [hn, frame_timestamps]
        | true => exact absurd ⟨by omega, hopen, hinit⟩ h

/-- C10 (evaluation at the failing input).  With two layers the frames are
added with the timestamps 0 and 0: the second frame, of index 1, does not
carry the timestamp 1. -/
theorem save_animation_two_layers_timestamps :
    frame_timestamps
        (save_animation sample_host "out.webp" 2 [1, 2] 1 1 sample_params sample_world).2.log
      = [0, 0] := by
  decide

/-! ## Claims about `webp_error_string` -/

/-- C5 (counterexample).  `VP8_ENC_ERROR_LAST` is none of the ten error codes,
yet it is not mapped to `unknown error`: the claim that every value outside
the ten codes maps to `unknown error` fails. -/
theorem webp_error_string_not_all_unknown :
    ¬ ∀ c : Int, c ∉ encoder_error_codes → webp_error_string c = "unknown error" := by
  intro h
  exact absurd (h VP8_ENC_ERROR_LAST (by decide)) (by decide)

/-- C5 (amended).  `webp_error_string` maps the ten error codes to the ten
strings of the table, which are pairwise distinct (equal strings come from
equal codes); it maps the terminator `VP8_ENC_ERROR_LAST` to
`list terminator`; and it maps every other value, `VP8_ENC_OK` included, to
`unknown error`. -/
theorem webp_error_string_table :
    encoder_error_codes.map webp_error_string
        = ["out of memory", "not enough memory to flush bits", "NULL parameter",
           "invalid configuration", "bad image dimensions", "partition is bigger than 512K",
           "partition is bigger than 16M", "unable to flush bytes", "file is larger than 4GiB",
           "user aborted encoding"]
      ∧ (encoder_error_codes.map webp_error_string).Nodup
      ∧ (∀ a ∈ encoder_error_codes, ∀ b ∈ encoder_error_codes,
          webp_error_string a = webp_error_string b → a = b)
      ∧ webp_error_string VP8_ENC_ERROR_LAST = "list terminator"
      ∧ webp_error_string VP8_ENC_OK = "unknown error"
      ∧ (∀ c : Int, c ∉ encoder_error_codes → c ≠ VP8_ENC_ERROR_LAST →
          webp_error_string c = "unknown error") := by
  refine ⟨by decide, by decide, by decide, by decide, by decide, ?_⟩
  intro c hc hlast
  simp only [encoder_error_codes, List.mem_cons, List.mem_singleton, List.not_mem_nil,
    or_false, not_or] at hc
  obtain ⟨h1, h2, h3, h4, h5, h6, h7, h8, h9, h10⟩ := hc
  simp only [webp_error_string, h1, h2, h3, h4, h5, h6, h7, h8, h9, h10, hlast, if_false]

/-! ## `g_fopen` calls of the two paths -/

theorem opens_nil (m : String) : opens m [] = 0 := rfl

theorem opens_cons (m : String) (e : Event) (l : List Event) :
    opens m (e :: l) = (if is_fopen m e then 1 else 0) + opens m l := by
  unfold opens
  rw [List.countP_cons]
  split_ifs <;> omega

theorem fwrite_events_no_open (m : String) (cs : List Bytes) :
    opens m (cs.map Event.fwrite) = 0 := by
  induction cs with
  | nil => rfl
  | cons c cs ih => rw [List.map_cons, opens_cons, ih]; rfl

theorem webp_anim_file_writer_opens (m : String) (d : Option Bytes) (w : World) :
    opens m (webp_anim_file_writer d w).2.log = opens m w.log := by
  rw [webp_anim_file_writer_log, opens_append, opens_cons]
  cases d <;> simp [opens_cons, opens_nil, is_fopen]

theorem save_layer_mux_opens (m : String) (host : Host) (image_ID : Int) (indata : Bytes)
    (w : World) :
    opens m (save_layer_mux host image_ID indata w).2.log = opens m w.log := by
  unfold save_layer_mux
  cases host.mux_create_ok indata <;> cases host.color_profile image_ID <;>
    simp [webp_anim_file_writer_opens, opens_append, opens_cons, opens_nil, is_fopen]

/-- The colour-profile step opens no file. -/
theorem save_layer_features_opens (m : String) (host : Host) (image_ID : Int) (w : World) :
    opens m (save_layer_features host image_ID w).log = opens m w.log := by
  unfold save_layer_features
  by_cases h1 : 0 < (w.file.getD []).length
  · by_cases h2 : (0 : Int) < (if host.fread_ok = true then to_int (w.file.getD []).length else 0)
    · simp [h1, h2, save_layer_mux_opens, opens_append, opens_cons, opens_nil, is_fopen]
    · simp [h1, h2, opens_append, opens_cons, opens_nil, is_fopen]
  · simp [h1, opens_append, opens_cons, opens_nil, is_fopen]

theorem save_layer_cleanup_opens (m : String) (l : LayerLocals) (w : World) :
    opens m (save_layer_cleanup l w).world.log = opens m w.log := by
  unfold save_layer_cleanup
  cases l.outfile <;> cases l.buffer <;>
    simp [Outcome.world, opens_append, opens_cons, opens_nil, is_fopen]

/-- The block of `save_layer` calls `g_fopen` once, with mode `wb+`. -/
theorem save_layer_body_opens (host : Host) (filename : String) (d : Int)
    (params : WebPSaveParams) (w : World) :
    opens "wb+" (save_layer_body host filename d params w).2.log = opens "wb+" w.log + 1
      ∧ opens "wb" (save_layer_body host filename d params w).2.log = opens "wb" w.log := by
  cases hopen : host.fopen_ok with
  | false =>
    rw [save_layer_body_fopen_failed host filename d params w hopen]
    simp [opens_append, opens_cons, opens_nil, is_fopen]
  | true =>
    cases halloc : host.layer_alloc_ok with
    | false =>
      rw [save_layer_body_alloc_failed host filename d params w hopen halloc]
      unfold layer_alloc_world
      cases host.GIMP_2_9 <;> simp [opens_append, opens_cons, opens_nil, is_fopen]
    | true =>
      have hw := layer_encode_world_file host filename d w
      have hs := WebPEncode_snd host (layer_config params) (layer_picture host d)
        (layer_encode_world host filename d w) [] hw.1 (by simp [hw.2.1])
      have hlog : opens "wb+" (layer_encode_world host filename d w).log = opens "wb+" w.log + 1
          ∧ opens "wb" (layer_encode_world host filename d w).log = opens "wb" w.log := by
        unfold layer_encode_world
        cases host.GIMP_2_9 <;> simp [opens_append, opens_cons, opens_nil, is_fopen]
      rw [save_layer_body_encoded host filename d params w hopen halloc]
      by_cases hc : (WebPEncode host (layer_config params) (layer_picture host d)
          (layer_encode_world host filename d w)).1 = VP8_ENC_OK
      · simp [hc, hs.2.2.2, opens_append, opens_cons, opens_nil, is_fopen,
          fwrite_events_no_open, hlog.1, hlog.2]
      · simp [hc, hs.2.2.2, opens_append, opens_cons, opens_nil, is_fopen,
          fwrite_events_no_open, hlog.1, hlog.2]

/-- Every call of `save_layer` calls `g_fopen` once, with mode `wb+`. -/
theorem save_layer_opens (host : Host) (filename : String) (nLayers image_ID d : Int)
    (params : WebPSaveParams) (w : World) :
    opens "wb+" (save_layer host filename nLayers image_ID d params w).world.log
        = opens "wb+" w.log + 1
      ∧ opens "wb" (save_layer host filename nLayers image_ID d params w).world.log
        = opens "wb" w.log := by
  have hb := save_layer_body_opens host filename d params w
  cases h29 : host.GIMP_2_9 with
  | false =>
    rw [save_layer_plain host filename nLayers image_ID d params w h29]
    simp [save_layer_cleanup_opens, hb.1, hb.2]
  | true =>
    cases hopen : host.fopen_ok with
    | true =>
      rw [save_layer_opened_2_9 host filename nLayers image_ID d params w h29 hopen]
      simp [save_layer_cleanup_opens, save_layer_features_opens, opens_append, opens_cons,
        opens_nil, is_fopen, hb.1, hb.2]
    | false =>
      have hbody := save_layer_body_fopen_failed host filename d params w hopen
      rw [hbody] at hb
      unfold save_layer
      simp only [hbody, h29, if_true]
      exact hb

/-- A call of `save_animation` with at least one layer calls `g_fopen` once,
with mode `wb`. -/
theorem save_animation_opens (host : Host) (filename : String) (nLayers : Int)
    (allLayers : List Int) (image_ID drawable_ID : Int) (params : WebPSaveParams) (w : World)
    (hn : 1 ≤ nLayers) :
    opens "wb"
        (save_animation host filename nLayers allLayers image_ID drawable_ID params w).2.log
        = opens "wb" w.log + 1
      ∧ opens "wb+"
        (save_animation host filename nLayers allLayers image_ID drawable_ID params w).2.log
        = opens "wb+" w.log := by
  have hlt : ¬ nLayers < 1 := by omega
  cases hopen : host.fopen_ok with
  | false =>
    unfold save_animation
    simp [hlt, hopen, opens_append, opens_cons, opens_nil, is_fopen]
  | true =>
    cases hinit : host.anim_options_init_ok with
    | false =>
      unfold save_animation
      simp [hlt, hopen, hinit, opens_append, opens_cons, opens_nil, is_fopen]
    | true =>
      have hw := anim_loop_world_reads host filename nLayers w
      have hl := (save_animation_loop_reads host allLayers params 0 nLayers.toNat 0 none
        (anim_loop_world host filename nLayers w)).2.2.2
      rw [save_animation_reached host filename nLayers allLayers image_ID drawable_ID params w
        hn hopen hinit]
      simp [opens_append, opens_cons, opens_nil, is_fopen, save_animation_finish_opens, hl,
        hw.2.2.2.2.1, hw.2.2.2.2.2]

theorem save_image_enter_opens (m : String) (host : Host) (filename : String) (w : World) :
    opens m (save_image_enter host filename w).log = opens m w.log := by
  unfold save_image_enter
  cases host.GIMP_2_9 <;> simp [opens_append, opens_cons, opens_nil, is_fopen]

theorem save_image_return_opens (m : String) (host : Host) (filename : String)
    (image_ID : Int) (r : Outcome) :
    opens m (save_image_return host filename image_ID r).world.log = opens m r.world.log := by
  cases r with
  | undefined w => rfl
  | returned status w =>
    unfold save_image_return save_image_metadata
    cases host.GIMP_2_9 <;> cases host.metadata_found image_ID <;>
      simp [Outcome.world, opens_append, opens_cons, opens_nil, is_fopen]

/-! ## Claims about `save_image` -/

/-- C1.  The decision table of `save_image`.  With no layer it returns
`FALSE` at once and leaves the world as it found it (no call is logged, so no
file is opened).  With one layer, or with several layers and
`params->animation == FALSE`, what it does is one call of `save_layer` on
`drawable_ID`, made after the entry steps and followed by the exit steps, and
the log gains one `g_fopen` with mode `wb+` and none with mode `wb`.  With
several layers and `params->animation != FALSE` it is one call of
`save_animation` on `allLayers`, and the log gains one `g_fopen` with mode
`wb` and none with mode `wb+`.  The exit steps hand on the status of the
chosen path unchanged. -/
theorem save_image_decision_table (host : Host) (filename : String) (nLayers : Int)
    (allLayers : List Int) (image_ID drawable_ID : Int) (params : WebPSaveParams)
    (w : World) :
    (nLayers = 0 →
        save_image host filename nLayers allLayers image_ID drawable_ID params w
          = Outcome.returned false w)
      ∧ (nLayers = 1 ∨ (1 < nLayers ∧ params.animation = 0) →
        save_image host filename nLayers allLayers image_ID drawable_ID params w
            = save_image_return host filename image_ID
                (save_layer host filename nLayers image_ID drawable_ID params
                  (save_image_enter host filename w))
          ∧ opens "wb+"
              (save_image host filename nLayers allLayers image_ID drawable_ID params w).world.log
              = opens "wb+" w.log + 1
          ∧ opens "wb"
              (save_image host filename nLayers allLayers image_ID drawable_ID params w).world.log
              = opens "wb" w.log)
      ∧ (1 < nLayers ∧ params.animation ≠ 0 →
        save_image host filename nLayers allLayers image_ID drawable_ID params w
            = save_image_return host filename image_ID
                (Outcome.returned
                  (save_animation host filename nLayers allLayers image_ID drawable_ID params
                    (save_image_enter host filename w)).1
                  (save_animation host filename nLayers allLayers image_ID drawable_ID params
                    (save_image_enter host filename w)).2)
          ∧ opens "wb"
              (save_image host filename nLayers allLayers image_ID drawable_ID params w).world.log
              = opens "wb" w.log + 1
          ∧ opens "wb+"
              (save_image host filename nLayers allLayers image_ID drawable_ID params w).world.log
              = opens "wb+" w.log)
      ∧ (∀ r : Outcome, (save_image_return host filename image_ID r).status = r.status) := by
  refine ⟨?_, ?_, ?_, ?_⟩
  · intro h0
    simp [save_image, h0]
  · intro h
    have heq : save_image host filename nLayers allLayers image_ID drawable_ID params w
        = save_image_return host filename image_ID
            (save_layer host filename nLayers image_ID drawable_ID params
              (save_image_enter host filename w)) := by
      rcases h with h1 | ⟨h1, ha⟩
      · simp [save_image, h1]
      · have hne0 : nLayers ≠ 0 := by omega
        have hne1 : nLayers ≠ 1 := by omega
        simp [save_image, hne0, hne1, ha]
    have ho := save_layer_opens host filename nLayers image_ID drawable_ID params
      (save_image_enter host filename w)
    refine ⟨heq, ?_, ?_⟩
    · rw [heq, save_image_return_opens, ho.1, save_image_enter_opens]
    · rw [heq, save_image_return_opens, ho.2, save_image_enter_opens]
  · rintro ⟨h1, ha⟩
    have hne0 : nLayers ≠ 0 := by omega
    have hne1 : nLayers ≠ 1 := by omega
    have heq : save_image host filename nLayers allLayers image_ID drawable_ID params w
        = save_image_return host filename image_ID
            (Outcome.returned
              (save_animation host filename nLayers allLayers image_ID drawable_ID params
                (save_image_enter host filename w)).1
              (save_animation host filename nLayers allLayers image_ID drawable_ID params
                (save_image_enter host filename w)).2) := by
      simp [save_image, hne0, hne1, ha]
    have ho := save_animation_opens host filename nLayers allLayers image_ID drawable_ID params
      (save_image_enter host filename w) (by omega)
    refine ⟨heq, ?_, ?_⟩
    · rw [heq, save_image_return_opens]
      simp only [Outcome.world]
      rw [ho.1, save_image_enter_opens]
    · rw [heq, save_image_return_opens]
      simp only [Outcome.world]
      rw [ho.2, save_image_enter_opens]
  · intro r
    cases r <;> rfl

/-- C2 (counterexample).  With no layer and an empty error location,
`save_image` returns `FALSE` and the error location is still empty: no
error of any kind is set. -/
theorem save_image_no_layers_sets_no_error :
    (save_image sample_host "out.webp" 0 [] 1 1 sample_params sample_world).status = some false
      ∧ sample_world.error = none
      ∧ (save_image sample_host "out.webp" 0 [] 1 1 sample_params sample_world).world.error
          = none := by
  decide

/-- C2 (amended).  With no layer `save_image` returns `FALSE` and leaves the
world as it found it: the error location is not written, no call is made, and
so no file is opened or created. -/
theorem save_image_zero_layers_unchanged (host : Host) (filename : String) (allLayers : List Int)
    (image_ID drawable_ID : Int) (params : WebPSaveParams) (w : World) :
    save_image host filename 0 allLayers image_ID drawable_ID params w
        = Outcome.returned false w
      ∧ (save_image host filename 0 allLayers image_ID drawable_ID params w).world.error
        = w.error
      ∧ (save_image host filename 0 allLayers image_ID drawable_ID params w).world.file = w.file
      ∧ (save_image host filename 0 allLayers image_ID drawable_ID params w).world.log
        = w.log := by
  have h : save_image host filename 0 allLayers image_ID drawable_ID params w
      = Outcome.returned false w := by
    simp [save_image]
  rw [h]
  exact ⟨rfl, rfl, rfl, rfl⟩

/-! ## Resource accounting -/

theorem acquired_nil (r : Resource) : acquired r [] = 0 := rfl

theorem released_nil (r : Resource) : released r [] = 0 := rfl

theorem acquired_cons (r : Resource) (e : Event) (l : List Event) :
    acquired r (e :: l) = (if acquires e = some r then 1 else 0) + acquired r l := by
  unfold acquired
  rw [List.countP_cons]
  by_cases h : acquires e = some r
  · simp [h]; omega
  · simp [h]

theorem released_cons (r : Resource) (e : Event) (l : List Event) :
    released r (e :: l) = (if releases e = some r then 1 else 0) + released r l := by
  unfold released
  rw [List.countP_cons]
  by_cases h : releases e = some r
  · simp [h]; omega
  · simp [h]

theorem acquired_append (r : Resource) (a b : List Event) :
    acquired r (a ++ b) = acquired r a + acquired r b := by
  simp [acquired]

theorem released_append (r : Resource) (a b : List Event) :
    released r (a ++ b) = released r a + released r b := by
  simp [released]

/-- No event releases a mux object. -/
theorem releases_ne_mux (e : Event) : releases e ≠ some Resource.mux := by
  cases e <;> first
    | (intro h; cases h)
    | (rename_i b; cases b <;> intro h <;> cases h)

/-- In no log is a mux object released. -/
theorem released_mux (log : List Event) : released Resource.mux log = 0 := by
  induction log with
  | nil => rfl
  | cons e l ih => rw [released_cons, ih, if_neg (releases_ne_mux e)]

theorem fwrite_events_no_resource (r : Resource) (cs : List Bytes) :
    acquired r (cs.map Event.fwrite) = 0 ∧ released r (cs.map Event.fwrite) = 0 := by
  induction cs with
  | nil => exact ⟨rfl, rfl⟩
  | cons c cs ih =>
    rw [List.map_cons, acquired_cons, released_cons, ih.1, ih.2]
    simp [acquires, releases]

theorem webp_anim_file_writer_resources (r : Resource) (d : Option Bytes) (w : World) :
    acquired r (webp_anim_file_writer d w).2.log = acquired r w.log
      ∧ released r (webp_anim_file_writer d w).2.log = released r w.log := by
  rw [webp_anim_file_writer_log, acquired_append, released_append, acquired_cons,
    released_cons]
  cases d <;>
    simp [acquired_cons, released_cons, acquired_nil, released_nil, acquires, releases]

theorem save_layer_mux_released (r : Resource) (host : Host) (image_ID : Int)
    (indata : Bytes) (w : World) :
    released r (save_layer_mux host image_ID indata w).2.log = released r w.log := by
  unfold save_layer_mux
  cases host.mux_create_ok indata <;> cases host.color_profile image_ID <;> cases r <;>
    simp [webp_anim_file_writer_resources, acquired_append, released_append, acquired_cons,
      released_cons, acquired_nil, released_nil, acquires, releases]

theorem save_layer_mux_acquired (r : Resource) (host : Host) (image_ID : Int)
    (indata : Bytes) (w : World) (hr : r ≠ Resource.mux) :
    acquired r (save_layer_mux host image_ID indata w).2.log = acquired r w.log := by
  unfold save_layer_mux
  cases host.mux_create_ok indata <;> cases host.color_profile image_ID <;> cases r <;>
    simp [webp_anim_file_writer_resources, acquired_append, released_append, acquired_cons,
      released_cons, acquired_nil, released_nil, acquires, releases] at hr ⊢

/-- The colour-profile step of `save_layer` releases nothing. -/
theorem save_layer_features_released (r : Resource) (host : Host) (image_ID : Int)
    (w : World) :
    released r (save_layer_features host image_ID w).log = released r w.log := by
  unfold save_layer_features
  by_cases h1 : 0 < (w.file.getD []).length
  · by_cases h2 : (0 : Int) < (if host.fread_ok = true then to_int (w.file.getD []).length else 0)
    · simp [h1, h2, save_layer_mux_released, released_append, released_cons, released_nil,
        releases]
    · simp [h1, h2, released_append, released_cons, released_nil, releases]
  · simp [h1, released_append, released_cons, released_nil, releases]

/-- The colour-profile step of `save_layer` acquires nothing but a mux object. -/
theorem save_layer_features_acquired (r : Resource) (host : Host) (image_ID : Int)
    (w : World) (hr : r ≠ Resource.mux) :
    acquired r (save_layer_features host image_ID w).log = acquired r w.log := by
  unfold save_layer_features
  by_cases h1 : 0 < (w.file.getD []).length
  · by_cases h2 : (0 : Int) < (if host.fread_ok = true then to_int (w.file.getD []).length else 0)
    · simp [h1, h2, save_layer_mux_acquired _ _ _ _ _ hr, acquired_append, acquired_cons,
        acquired_nil, acquires]
    · simp [h1, h2, acquired_append, acquired_cons, acquired_nil, acquires]
  · simp [h1, acquired_append, acquired_cons, acquired_nil, acquires]

/-- The cleanup of `save_layer` closes the stream if there is one, frees the
buffer if there is one, and acquires nothing. -/
theorem save_layer_cleanup_resources (r : Resource) (l : LayerLocals) (w : World) :
    acquired r (save_layer_cleanup l w).world.log = acquired r w.log
      ∧ released r (save_layer_cleanup l w).world.log
          = released r w.log
            + (if (r = Resource.file ∧ l.outfile = true)
                ∨ (r = Resource.pixel_buffer ∧ l.buffer = true) then 1 else 0) := by
  unfold save_layer_cleanup
  cases l.outfile <;> cases l.buffer <;> cases r <;>
    simp [Outcome.world, acquired_append, released_append, acquired_cons, released_cons,
      acquired_nil, released_nil, acquires, releases]

/-- The block of `save_layer` releases nothing; it acquires the stream, the
pixel buffer and the GEGL buffer that its locals hold afterwards. -/
theorem save_layer_body_resources (r : Resource) (host : Host) (filename : String) (d : Int)
    (params : WebPSaveParams) (w : World) :
    released r (save_layer_body host filename d params w).2.log = released r w.log
      ∧ acquired r (save_layer_body host filename d params w).2.log
          = acquired r w.log
            + (if (r = Resource.file ∧ (save_layer_body host filename d params w).1.outfile = true)
                ∨ (r = Resource.pixel_buffer
                    ∧ (save_layer_body host filename d params w).1.buffer = true)
                ∨ (r = Resource.gegl_buffer
                    ∧ (save_layer_body host filename d params w).1.geglbuffer.isSome = true)
               then 1 else 0) := by
  cases hopen : host.fopen_ok with
  | false =>
    rw [save_layer_body_fopen_failed host filename d params w hopen]
    cases r <;>
      simp [acquired_append, released_append, acquired_cons, released_cons, acquired_nil,
        released_nil, acquires, releases]
  | true =>
    cases halloc : host.layer_alloc_ok with
    | false =>
      rw [save_layer_body_alloc_failed host filename d params w hopen halloc]
      unfold layer_alloc_world
      cases host.GIMP_2_9 <;> cases r <;>
        simp [halloc, acquired_append, released_append, acquired_cons, released_cons,
          acquired_nil, released_nil, acquires, releases]
    | true =>
      have hw := layer_encode_world_file host filename d w
      have hs := WebPEncode_snd host (layer_config params) (layer_picture host d)
        (layer_encode_world host filename d w) [] hw.1 (by simp [hw.2.1])
      have hf := fwrite_events_no_resource r
        (host.encode_chunks (layer_config params) (layer_picture host d))
      have hlog : released r (layer_encode_world host filename d w).log = released r w.log
          ∧ acquired r (layer_encode_world host filename d w).log
            = acquired r w.log
              + (if r = Resource.file ∨ r = Resource.pixel_buffer
                    ∨ (r = Resource.gegl_buffer ∧ host.GIMP_2_9 = true) then 1 else 0) := by
        unfold layer_encode_world
        cases host.GIMP_2_9 <;> cases r <;>
          simp [halloc, acquired_append, released_append, acquired_cons, released_cons,
            acquired_nil, released_nil, acquires, releases]
      rw [save_layer_body_encoded host filename d params w hopen halloc]
      by_cases hc : (WebPEncode host (layer_config params) (layer_picture host d)
          (layer_encode_world host filename d w)).1 = VP8_ENC_OK
      · cases h29 : host.GIMP_2_9 <;> cases r <;>
          simp [hc, h29, hs.2.2.2, acquired_append, released_append, acquired_cons,
            released_cons, acquired_nil, released_nil, acquires, releases, hf.1, hf.2,
            hlog.1, hlog.2]
      · cases h29 : host.GIMP_2_9 <;> cases r <;>
          simp [hc, h29, hs.2.2.2, acquired_append, released_append, acquired_cons,
            released_cons, acquired_nil, released_nil, acquires, releases, hf.1, hf.2,
            hlog.1, hlog.2]

/-- In every call of `save_layer`, whether it returns or not, each stream,
pixel buffer and GEGL buffer that is acquired is released once, and at most
one of each kind is acquired. -/
theorem save_layer_resources (r : Resource) (hr : r ≠ Resource.mux) (host : Host)
    (filename : String) (nLayers image_ID d : Int) (params : WebPSaveParams) (w : World) :
    ∃ k, k ≤ 1
      ∧ acquired r (save_layer host filename nLayers image_ID d params w).world.log
          = acquired r w.log + k
      ∧ released r (save_layer host filename nLayers image_ID d params w).world.log
          = released r w.log + k := by
  have hb := save_layer_body_resources r host filename d params w
  refine ⟨(if (r = Resource.file ∧ (save_layer_body host filename d params w).1.outfile = true)
      ∨ (r = Resource.pixel_buffer ∧ (save_layer_body host filename d params w).1.buffer = true)
      ∨ (r = Resource.gegl_buffer
          ∧ (save_layer_body host filename d params w).1.geglbuffer.isSome = true)
    then 1 else 0), ?_, ?_, ?_⟩
  · split_ifs <;> omega
  · rw [← hb.2]
    cases h29 : host.GIMP_2_9 with
    | false =>
      rw [save_layer_plain host filename nLayers image_ID d params w h29,
        (save_layer_cleanup_resources r _ _).1]
    | true =>
      cases hopen : host.fopen_ok with
      | true =>
        rw [save_layer_opened_2_9 host filename nLayers image_ID d params w h29 hopen,
          (save_layer_cleanup_resources r _ _).1, save_layer_features_acquired r _ _ _ hr]
        cases r <;> simp [acquired_append, acquired_cons, acquired_nil, acquires]
      | false =>
        have hbody := save_layer_body_fopen_failed host filename d params w hopen
        unfold save_layer
        simp only [hbody, h29, if_true, Outcome.world]
  · cases h29 : host.GIMP_2_9 with
    | false =>
      have hg : (save_layer_body host filename d params w).1.geglbuffer = none := by
        cases hopen : host.fopen_ok with
        | true =>
          rw [(save_layer_body_locals host filename d params w hopen).2]
          simp [h29]
        | false => rw [save_layer_body_fopen_failed host filename d params w hopen]
      rw [save_layer_plain host filename nLayers image_ID d params w h29,
        (save_layer_cleanup_resources r _ _).2, hb.1, hg]
      cases r <;> simp
    | true =>
      cases hopen : host.fopen_ok with
      | true =>
        have hl := save_layer_body_locals host filename d params w hopen
        rw [save_layer_opened_2_9 host filename nLayers image_ID d params w h29 hopen,
          (save_layer_cleanup_resources r _ _).2, save_layer_features_released, hl.2]
        simp only [emit_log, released_append, hb.1]
        cases r <;> simp [released_cons, released_nil, releases, h29]
      | false =>
        have hbody := save_layer_body_fopen_failed host filename d params w hopen
        rw [hbody] at hb
        unfold save_layer
        simp only [hbody, h29, if_true, Outcome.world]
        rw [hb.1]
        cases r <;> simp

/-- A pass through the loop body of `save_animation` touches no stream; it
frees the pixel buffer it allocated unless it ends in a `break`, in which
case it allocated none. -/
theorem save_animation_body_buffers (host : Host) (allLayers : List Int)
    (params : WebPSaveParams) (ts : Int) (loop : Nat)
    (enc : Option (List (WebPPicture × Int))) (w : World) :
    acquired Resource.file (save_animation_body host allLayers params ts loop enc w).world.log
        = acquired Resource.file w.log
      ∧ released Resource.file (save_animation_body host allLayers params ts loop enc w).world.log
        = released Resource.file w.log
      ∧ acquired Resource.pixel_buffer
          (save_animation_body host allLayers params ts loop enc w).world.log
        = acquired Resource.pixel_buffer w.log
          + (if (save_animation_body host allLayers params ts loop enc w).broke then 0 else 1)
      ∧ released Resource.pixel_buffer
          (save_animation_body host allLayers params ts loop enc w).world.log
        = released Resource.pixel_buffer w.log
          + (if (save_animation_body host allLayers params ts loop enc w).broke then 0 else 1) := by
  unfold save_animation_body
  simp only []
  split_ifs <;>
    simp_all [acquired_append, released_append, acquired_cons, released_cons, acquired_nil,
      released_nil, acquires, releases]

/-- A pass through the loop body of `save_animation` deletes no encoder; the
first pass creates one exactly when `enc` is not `NULL` afterwards, a later
pass creates none and leaves `enc` as it is. -/
theorem save_animation_body_encoder (host : Host) (allLayers : List Int)
    (params : WebPSaveParams) (ts : Int) (loop : Nat)
    (enc : Option (List (WebPPicture × Int))) (w : World) :
    released Resource.anim_encoder
        (save_animation_body host allLayers params ts loop enc w).world.log
        = released Resource.anim_encoder w.log
      ∧ (loop = 0 →
          acquired Resource.anim_encoder
            (save_animation_body host allLayers params ts loop enc w).world.log
          = acquired Resource.anim_encoder w.log
            + (if (save_animation_body host allLayers params ts loop enc w).enc.isSome
                then 1 else 0))
      ∧ (loop ≠ 0 →
          acquired Resource.anim_encoder
            (save_animation_body host allLayers params ts loop enc w).world.log
            = acquired Resource.anim_encoder w.log
          ∧ (save_animation_body host allLayers params ts loop enc w).enc.isSome
            = enc.isSome) := by
  unfold save_animation_body
  simp only []
  refine ⟨?_, ?_, ?_⟩
  · split_ifs <;>
      simp_all [acquired_append, released_append, acquired_cons, released_cons, acquired_nil,
        released_nil, acquires, releases]
  · intro h0
    subst h0
    split_ifs <;>
      simp_all [acquired_append, released_append, acquired_cons, released_cons, acquired_nil,
        released_nil, acquires, releases]
  · intro h0
    simp only [h0, false_and, if_false]
    split_ifs <;>
      simp_all [acquired_append, released_append, acquired_cons, released_cons, acquired_nil,
        released_nil, acquires, releases]

/-- The loop of `save_animation` touches no stream and frees every pixel
buffer it allocates. -/
theorem save_animation_loop_buffers (host : Host) (allLayers : List Int)
    (params : WebPSaveParams) (ts : Int) (remaining : Nat) :
    ∀ (loop : Nat) (enc : Option (List (WebPPicture × Int))) (w : World),
      acquired Resource.file
          (save_animation_loop host allLayers params ts remaining loop enc w).2.log
          = acquired Resource.file w.log
        ∧ released Resource.file
          (save_animation_loop host allLayers params ts remaining loop enc w).2.log
          = released Resource.file w.log
        ∧ ∃ k, acquired Resource.pixel_buffer
              (save_animation_loop host allLayers params ts remaining loop enc w).2.log
              = acquired Resource.pixel_buffer w.log + k
            ∧ released Resource.pixel_buffer
              (save_animation_loop host allLayers params ts remaining loop enc w).2.log
              = released Resource.pixel_buffer w.log + k := by
  induction remaining with
  | zero => intro loop enc w; exact ⟨rfl, rfl, 0, rfl, rfl⟩
  | succ n ih =>
    intro loop enc w
    have hb := save_animation_body_buffers host allLayers params ts loop enc w
    unfold save_animation_loop
    simp only []
    split_ifs with hbr
    · exact ⟨hb.1, hb.2.1, _, hb.2.2.1, hb.2.2.2⟩
    · obtain ⟨h1, h2, k, h3, h4⟩ := ih (loop + 1)
        (save_animation_body host allLayers params ts loop enc w).enc
        (save_animation_body host allLayers params ts loop enc w).world
      refine ⟨h1.trans hb.1, h2.trans hb.2.1,
        (if (save_animation_body host allLayers params ts loop enc w).broke then 0 else 1) + k,
        h3.trans ?_, h4.trans ?_⟩
      · rw [hb.2.2.1, Nat.add_assoc]
      · rw [hb.2.2.2, Nat.add_assoc]

/-- Passes of the loop of `save_animation` after the first create no encoder,
delete none, and leave `enc` as it is. -/
theorem save_animation_loop_encoder_later (host : Host) (allLayers : List Int)
    (params : WebPSaveParams) (ts : Int) (remaining : Nat) :
    ∀ (loop : Nat) (enc : Option (List (WebPPicture × Int))) (w : World), loop ≠ 0 →
      acquired Resource.anim_encoder
          (save_animation_loop host allLayers params ts remaining loop enc w).2.log
          = acquired Resource.anim_encoder w.log
        ∧ released Resource.anim_encoder
          (save_animation_loop host allLayers params ts remaining loop enc w).2.log
          = released Resource.anim_encoder w.log
        ∧ (save_animation_loop host allLayers params ts remaining loop enc w).1.isSome
          = enc.isSome := by
  induction remaining with
  | zero => intro loop enc w _; exact ⟨rfl, rfl, rfl⟩
  | succ n ih =>
    intro loop enc w h0
    have hb := save_animation_body_encoder host allLayers params ts loop enc w
    have hb3 := hb.2.2 h0
    unfold save_animation_loop
    simp only []
    split_ifs with hbr
    · exact ⟨hb3.1, hb.1, hb3.2⟩
    · obtain ⟨h1, h2, h3⟩ := ih (loop + 1)
        (save_animation_body host allLayers params ts loop enc w).enc
        (save_animation_body host allLayers params ts loop enc w).world (Nat.succ_ne_zero loop)
      exact ⟨h1.trans hb3.1, h2.trans hb.1, h3.trans hb3.2⟩

/-- The loop of `save_animation`, run from its start, deletes no encoder and
creates one exactly when `enc` is not `NULL` afterwards. -/
theorem save_animation_loop_encoder (host : Host) (allLayers : List Int)
    (params : WebPSaveParams) (ts : Int) (remaining : Nat) (w : World) :
    released Resource.anim_encoder
        (save_animation_loop host allLayers params ts remaining 0 none w).2.log
        = released Resource.anim_encoder w.log
      ∧ acquired Resource.anim_encoder
          (save_animation_loop host allLayers params ts remaining 0 none w).2.log
        = acquired Resource.anim_encoder w.log
          + (if (save_animation_loop host allLayers params ts remaining 0 none w).1.isSome
              then 1 else 0) := by
  cases remaining with
  | zero => exact ⟨rfl, rfl⟩
  | succ n =>
    have hb := save_animation_body_encoder host allLayers params ts 0 none w
    have hb2 := hb.2.1 rfl
    unfold save_animation_loop
    by_cases hbr : (save_animation_body host allLayers params ts 0 none w).broke = true
    · simp only [hbr, if_true]
      exact ⟨hb.1, hb2⟩
    · simp only [hbr, Bool.false_eq_true, if_false]
      obtain ⟨h1, h2, h3⟩ := save_animation_loop_encoder_later host allLayers params ts n
        (0 + 1) (save_animation_body host allLayers params ts 0 none w).enc
        (save_animation_body host allLayers params ts 0 none w).world (Nat.succ_ne_zero 0)
      refine ⟨h2.trans hb.1, ?_⟩
      rw [h1, h3, hb2]

theorem fwrite_option_no_resource (r : Resource) (d : Option Bytes) :
    acquired r (d.map Event.fwrite).toList = 0 ∧ released r (d.map Event.fwrite).toList = 0 := by
  cases d <;> exact ⟨rfl, rfl⟩

set_option maxHeartbeats 2000000 in
/-- The tail of `save_animation` acquires nothing but a mux object and
releases nothing but the encoder, which it deletes when there is one. -/
theorem save_animation_finish_resources (r : Resource) (host : Host) (image_ID : Int)
    (params : WebPSaveParams) (ts : Int) (enc : Option (List (WebPPicture × Int)))
    (w : World) :
    (r ≠ Resource.mux →
        acquired r (save_animation_finish host image_ID params ts enc w).log
          = acquired r w.log)
      ∧ released r (save_animation_finish host image_ID params ts enc w).log
        = released r w.log
          + (if r = Resource.anim_encoder ∧ enc.isSome = true then 1 else 0) := by
  unfold save_animation_finish
  simp only [emit_log, webp_anim_file_writer_log]
  constructor
  · intro hr
    cases enc <;> cases r <;> dsimp only <;> split_ifs <;> split <;>
      simp_all [acquired_append, acquired_cons, acquired_nil, acquires,
        (fwrite_option_no_resource _ _).1]
  · cases enc <;> cases r <;> dsimp only <;> split_ifs <;> split <;>
      simp_all [released_append, released_cons, released_nil, releases,
        (fwrite_option_no_resource _ _).2]

theorem anim_loop_world_resources (r : Resource) (host : Host) (filename : String)
    (nLayers : Int) (w : World) :
    acquired r (anim_loop_world host filename nLayers w).log
        = acquired r w.log + (if r = Resource.file then 1 else 0)
      ∧ released r (anim_loop_world host filename nLayers w).log = released r w.log := by
  unfold anim_loop_world
  cases r <;>
    simp [acquired_append, released_append, acquired_cons, released_cons, acquired_nil,
      released_nil, acquires, releases]

/-- In every call of `save_animation` each stream, pixel buffer and animation
encoder that is acquired is released once; at most one stream is opened and
at most one encoder created. -/
theorem save_animation_resources (r : Resource)
    (hr : r = Resource.file ∨ r = Resource.pixel_buffer ∨ r = Resource.anim_encoder)
    (host : Host) (filename : String) (nLayers : Int) (allLayers : List Int)
    (image_ID drawable_ID : Int) (params : WebPSaveParams) (w : World) :
    ∃ k, (r ≠ Resource.pixel_buffer → k ≤ 1)
      ∧ acquired r
          (save_animation host filename nLayers allLayers image_ID drawable_ID params w).2.log
          = acquired r w.log + k
      ∧ released r
          (save_animation host filename nLayers allLayers image_ID drawable_ID params w).2.log
          = released r w.log + k := by
  by_cases h : 1 ≤ nLayers ∧ host.fopen_ok = true ∧ host.anim_options_init_ok = true
  · have hw := anim_loop_world_resources r host filename nLayers w
    have hmux : r ≠ Resource.mux := by
      rcases hr with hr | hr | hr <;> rw [hr] <;> decide
    have hfin := save_animation_finish_resources r host image_ID params 0
      (save_animation_loop host allLayers params 0 nLayers.toNat 0 none
        (anim_loop_world host filename nLayers w)).1
      (save_animation_loop host allLayers params 0 nLayers.toNat 0 none
        (anim_loop_world host filename nLayers w)).2
    have hbuf := save_animation_loop_buffers host allLayers params 0 nLayers.toNat 0 none
      (anim_loop_world host filename nLayers w)
    have henc := save_animation_loop_encoder host allLayers params 0 nLayers.toNat
      (anim_loop_world host filename nLayers w)
    rw [save_animation_reached host filename nLayers allLayers image_ID drawable_ID params w
      h.1 h.2.1 h.2.2]
    simp only [emit_log, acquired_append, released_append, hfin.1 hmux, hfin.2]
    rcases hr with hr | hr | hr
    · subst hr
      refine ⟨1, fun _ => Nat.le_refl 1, ?_, ?_⟩
      · rw [hbuf.1, hw.1]
        simp [acquired_cons, acquired_nil, acquires]
      · rw [hbuf.2.1, hw.2]
        simp [released_cons, released_nil, releases]
    · subst hr
      obtain ⟨k, hk1, hk2⟩ := hbuf.2.2
      refine ⟨k, fun hne => absurd rfl hne, ?_, ?_⟩
      · rw [hk1, hw.1]
        simp [acquired_cons, acquired_nil, acquires]
      · rw [hk2, hw.2]
        simp [released_cons, released_nil, releases]
    · subst hr
      refine ⟨(if (save_animation_loop host allLayers params 0 nLayers.toNat 0 none
          (anim_loop_world host filename nLayers w)).1.isSome then 1 else 0), ?_, ?_, ?_⟩
      · intro _; split_ifs <;> omega
      · rw [henc.2, hw.1]
        simp [acquired_cons, acquired_nil, acquires]
      · rw [henc.1, hw.2]
        simp [released_cons, released_nil, releases]
  · unfold save_animation
    by_cases hn : nLayers < 1
    · refine ⟨0, fun _ => Nat.zero_le 1, ?_, ?_⟩ <;>
        simp [hn, acquired_append, released_append, acquired_cons, released_cons,
          acquired_nil, released_nil, acquires, releases]
    · cases hopen : host.fopen_ok with
      | false =>
        refine ⟨0, fun _ => Nat.zero_le 1, ?_, ?_⟩ <;>
          simp [hn, acquired_append, released_append, acquired_cons, released_cons,
            acquired_nil, released_nil, acquires, releases]
      | true =>
        cases hinit : host.anim_options_init_ok with
        | true => exact absurd ⟨by omega, hopen, hinit⟩ h
        | false =>
          rcases hr with hr | hr | hr
          · subst hr
            refine ⟨1, fun _ => Nat.le_refl 1, ?_, ?_⟩ <;>
              simp [hn, acquired_append, released_append, acquired_cons, released_cons,
                acquired_nil, released_nil, acquires, releases]
          · subst hr
            refine ⟨0, fun _ => Nat.zero_le 1, ?_, ?_⟩ <;>
              simp [hn, acquired_append, released_append, acquired_cons, released_cons,
                acquired_nil, released_nil, acquires, releases]
          · subst hr
            refine ⟨0, fun _ => Nat.zero_le 1, ?_, ?_⟩ <;>
              simp [hn, acquired_append, released_append, acquired_cons, released_cons,
                acquired_nil, released_nil, acquires, releases]

/-! ## The claim about resources -/

/-- C11 (evaluation at the failing inputs).  A two-layer animation export in
which every call succeeds returns `TRUE` having created one mux object and
deleted none; a single-frame export (`GIMP_2_9`) in which every call succeeds
returns `TRUE` having created one mux object and deleted none; and a
`GIMP_2_9` animation export whose encoder cannot be created leaves the loop
by `break` and returns with the GEGL buffer of the first layer acquired and
not released. -/
theorem created_mux_is_never_deleted :
    ((save_animation sample_host "out.webp" 2 [1, 2] 1 1 sample_params sample_world).1 = true
      ∧ acquired Resource.mux
          (save_animation sample_host "out.webp" 2 [1, 2] 1 1 sample_params sample_world).2.log = 1
      ∧ released Resource.mux
          (save_animation sample_host "out.webp" 2 [1, 2] 1 1 sample_params sample_world).2.log = 0)
    ∧ ((save_layer sample_host "out.webp" 1 1 1 sample_params sample_world).status = some true
      ∧ acquired Resource.mux
          (save_layer sample_host "out.webp" 1 1 1 sample_params sample_world).world.log = 1
      ∧ released Resource.mux
          (save_layer sample_host "out.webp" 1 1 1 sample_params sample_world).world.log = 0)
    ∧ (acquired Resource.gegl_buffer
          (save_animation no_encoder_host "out.webp" 2 [1, 2] 1 1 sample_params
            sample_world).2.log = 1
      ∧ released Resource.gegl_buffer
          (save_animation no_encoder_host "out.webp" 2 [1, 2] 1 1 sample_params
            sample_world).2.log = 0) := by
  decide

end WebpSave
